import Mathlib

/-!
# Restaurant management backend: order items, orders and the per-order report

A shallow embedding of the Go handlers of `controllers/orderItemsController.go`,
`controllers/orderController.go`, `controllers/foodController.go`,
`controllers/invoiceController.go` and `controllers/userController.go`, with the
models of `models/` and the routes of `routes/orderItemRouter.go`.

* Documents are association lists from BSON field names to scalars; a collection is
  a list of documents; the store is one list per collection name.
* `float64` values are rationals together with an explicit rounding function `fl`
  applied after every arithmetic operation: `fl := id` is exact arithmetic and
  `fl := rnd64` is IEEE-754 binary64 (round to nearest, ties to even).
* `validate.Struct` is a parameter of the handlers; the validators the program runs are
  read off the `validate` tags of `models/`, with the tag reader of the validator library.
* The faults of the store are a parameter of the handlers.
* The aggregation pipeline of `ItemsByOrder` is one Lean function per stage, in the
  order in which the source hands the stages to `Aggregate`; the check the server makes
  on a `$project` specification before it runs a pipeline is `projectRefused`.
-/

namespace Restaurant

/-! ## Numbers: `round` and `toFixed` of `foodController.go` -/

/-- Floor of the binary logarithm, by halving (`fuel` bounds the number of halvings). -/
def log2Aux : Nat → Nat → Nat
  | 0, _ => 0
  | fuel + 1, n => if n < 2 then 0 else log2Aux fuel (n / 2) + 1

/-- Floor of the binary logarithm of `n` (`0` for `n < 2`). -/
def log2 (n : Nat) : Nat := log2Aux n n

/-- Nearest 53-bit significand: the positive rational `n / d` is rounded to
`m * 2 ^ e` with `2 ^ 52 ≤ m ≤ 2 ^ 53`, to nearest and ties to even; `(m, e)` is returned. -/
def nearest53 (n d : Nat) : Nat × Int :=
  let e0 : Int := (log2 n : Int) - (log2 d : Int) - 52
  let e : Int := if n * 2 ^ (-e0).toNat < d * 2 ^ e0.toNat * 2 ^ 52 then e0 - 1 else e0
  let N := n * 2 ^ (-e).toNat
  let D := d * 2 ^ e.toNat
  let m := N / D
  let r := N % D
  (if 2 * r < D then m else if D < 2 * r then m + 1 else if m % 2 = 0 then m else m + 1, e)

/-- The rational `m * 2 ^ e`. -/
def dyadic (me : Nat × Int) : ℚ :=
  mkRat ((me.1 * 2 ^ me.2.toNat : Nat) : Int) (2 ^ (-me.2).toNat)

/-- Rounding of a rational to binary64: 53 bits of significand, round to nearest, ties to
even. The exponent is unbounded: overflow to an infinity and gradual underflow, which no
price of the order of a bill reaches, are outside this function. -/
def rnd64 (q : ℚ) : ℚ :=
  match q.num with
  | Int.ofNat 0 => 0
  | Int.ofNat (n + 1) => dyadic (nearest53 (n + 1) q.den)
  | Int.negSucc n => -dyadic (nearest53 (n + 1) q.den)

/-- Go conversion `int(x)` of a finite float: the fraction is discarded (truncation
toward zero). -/
def truncInt (q : ℚ) : Int := Int.tdiv q.num (q.den : Int)

/-- The 64-bit `int`: a value in range is kept; the conversion of a float out of range is
implementation-specific in Go, and the amd64 result (the least `int64`) is taken. -/
def int64 (t : Int) : Int :=
  if -(2 : Int) ^ 63 ≤ t ∧ t < (2 : Int) ^ 63 then t else -(2 : Int) ^ 63

/-- The value `math.Copysign(0.5, num)`. -/
def copysignHalf (num : ℚ) : ℚ := if num < 0 then -(1 / 2) else 1 / 2

/-- Source `round`: `int(num + math.Copysign(0.5, num))`, the sum rounded by `fl`. -/
def round (fl : ℚ → ℚ) (num : ℚ) : Int :=
  int64 (truncInt (fl (num + copysignHalf num)))

/-- Source `toFixed`: `output := math.Pow(10, precision)` and
`float64(round(num * output)) / output`, every float operation rounded by `fl`. -/
def toFixed (fl : ℚ → ℚ) (num : ℚ) (precision : Nat) : ℚ :=
  let output : ℚ := fl ((10 : ℚ) ^ precision)
  fl (fl ((round fl (fl (num * output)) : Int) : ℚ) / output)

/-- A BSON scalar. `oid` is an ObjectID, `time` a timestamp in whole seconds, `num` an
int or a double. -/
inductive Scalar where
  | null
  | str (s : String)
  | num (q : ℚ)
  | oid (n : Nat)
  | time (t : Nat)
  deriving DecidableEq, Repr

/-- A stored document: BSON field name to value. Every model of `models/` has scalar
fields only. -/
abbrev Doc := List (String × Scalar)

/-- The value of field `k` of a document, `none` when the document has no such field. -/
def getField (d : Doc) (k : String) : Option Scalar := List.lookup k d

/-- A field of an aggregation result: a scalar, a sub-document, or an array of documents. -/
inductive Field where
  | val (s : Scalar)
  | sub (d : Doc)
  | arr (ds : List Doc)
  deriving DecidableEq, Repr

/-- An aggregation result row (`primitive.M`). -/
abbrev M := List (String × Field)

/-- The value of key `k` of a result row. -/
def getM (m : M) (k : String) : Option Field := List.lookup k m

/-- The store: the documents of each collection, by collection name (`database.OpenCollection`
is given `"food"`, `"invoice"`, `"Order"`, `"orderItem"` and `"user"`; the pipeline of
`ItemsByOrder` reads `"food"`, `"order"` and `"table"`). -/
abbrev Store := String → List Doc

/-- Appends documents to the collection `name`. -/
def Store.insert (s : Store) (name : String) (ds : List Doc) : Store :=
  fun c => if c = name then s c ++ ds else s c

/-- What a handler runs against: the store, the last ObjectID handed out, the clock. -/
structure World where
  store : Store
  nextId : Nat
  now : Nat

/-- Store operations that fail when their flag is set; a failed write writes nothing. -/
structure Faults where
  insertOne : Bool := false
  insertMany : Bool := false
  aggregate : Bool := false
  cursorAll : Bool := false
  updateOne : Bool := false
  countDocuments : Bool := false
  deriving DecidableEq, Repr

/-- The text of `primitive.ObjectID.Hex`: 24 hexadecimal digits. -/
def Hex (id : Nat) : String :=
  let ds := Nat.toDigits 16 id
  String.mk (List.replicate (24 - ds.length) '0' ++ ds)

/-! ## Models -/

/-- Go struct `models.OrderItem`; a pointer field is an `Option`, the zero ObjectID is `0`. -/
structure OrderItem where
  ID : Nat := 0
  Quantity : Option String := none
  Order_ID : String := ""
  Order_Item_Id : String := ""
  Unit_Price : Option ℚ := none
  Food_id : Option String := none
  CreatedAt : Nat := 0
  UpdatedAt : Nat := 0
  deriving DecidableEq, Repr

/-- Go struct `models.Order`. -/
structure Order where
  ID : Nat := 0
  Order_Date : Nat := 0
  Table_ID : Option String := none
  Order_ID : String := ""
  CreatedAt : Nat := 0
  UpdatedAt : Nat := 0
  deriving DecidableEq, Repr

/-- Go struct `controllers.OrderItemPack`, the body of `POST /orderItems`. -/
structure OrderItemPack where
  Table_id : Option String := none
  Order_items : List OrderItem := []
  deriving DecidableEq, Repr

/-- BSON value of a `*string`. -/
def optStr : Option String → Scalar
  | none => .null
  | some s => .str s

/-- BSON value of a `*float64`. -/
def optNum : Option ℚ → Scalar
  | none => .null
  | some q => .num q

/-- BSON field `_id,omitempty`: left out for the zero ObjectID. -/
def idField (id : Nat) : Doc := if id = 0 then [] else [("_id", .oid id)]

/-- Marshalling of `models.OrderItem` by its `bson` tags. -/
def OrderItem.toBson (o : OrderItem) : Doc :=
  idField o.ID ++
  [("quantity", optStr o.Quantity), ("order_id", .str o.Order_ID),
   ("order_item_id", .str o.Order_Item_Id), ("unit_price", optNum o.Unit_Price),
   ("food_id", optStr o.Food_id), ("created_at", .time o.CreatedAt),
   ("updated_at", .time o.UpdatedAt)]

/-- Marshalling of `models.Order` by its `bson` tags. -/
def Order.toBson (o : Order) : Doc :=
  idField o.ID ++
  [("order_date", .time o.Order_Date), ("table_id", optStr o.Table_ID),
   ("order_id", .str o.Order_ID), ("created_at", .time o.CreatedAt),
   ("updated_at", .time o.UpdatedAt)]

/-- Decoding of a string field; a field that is absent, null or of another type leaves the
zero value. -/
def decodeStr : Option Scalar → String
  | some (.str s) => s
  | _ => ""

/-- Decoding of a `*string` field. -/
def decodeOptStr : Option Scalar → Option String
  | some (.str s) => some s
  | _ => none

/-- Decoding of a `*float64` field. -/
def decodeOptNum : Option Scalar → Option ℚ
  | some (.num q) => some q
  | _ => none

/-- Decoding of an ObjectID field. -/
def decodeOid : Option Scalar → Nat
  | some (.oid n) => n
  | _ => 0

/-- Decoding of a `time.Time` field. -/
def decodeTime : Option Scalar → Nat
  | some (.time t) => t
  | _ => 0

/-- `Decode` of a document into `models.OrderItem`, field by field along the `bson` tags. -/
def OrderItem.ofBson (d : Doc) : OrderItem :=
  { ID := decodeOid (getField d "_id")
    Quantity := decodeOptStr (getField d "quantity")
    Order_ID := decodeStr (getField d "order_id")
    Order_Item_Id := decodeStr (getField d "order_item_id")
    Unit_Price := decodeOptNum (getField d "unit_price")
    Food_id := decodeOptStr (getField d "food_id")
    CreatedAt := decodeTime (getField d "created_at")
    UpdatedAt := decodeTime (getField d "updated_at") }

/-- Go struct `models.Food`. `Name`, `Price` and `Food_image` have no `bson` tag and are
stored under the lower-cased field name. -/
structure Food where
  ID : Nat := 0
  Name : Option String := none
  Price : Option ℚ := none
  Food_image : Option String := none
  Created_at : Nat := 0
  Updated_at : Nat := 0
  Food_id : String := ""
  Menu_id : Option String := none
  deriving DecidableEq, Repr

/-- Go struct `models.Invoice`. -/
structure Invoice where
  ID : Nat := 0
  Invoice_id : String := ""
  Order_id : String := ""
  Payment_method : Option String := none
  Payment_status : Option String := none
  Payment_due_date : Nat := 0
  Created_at : Nat := 0
  Updated_at : Nat := 0
  deriving DecidableEq, Repr

/-- Modelled from the spec: `models.User` is declared in a file that is not among the
sources, and the spec names users only as one of the collections. The fields are those
`userController.go` reads and writes: the pointers it dereferences or assigns (`Email`,
`Password`, `First_name`, `Last_name`, `Token`, `Refresh_Token`), `Phone`, the timestamps,
`ID` and `User_id`; each is stored under the key the controller filters on (`email`,
`phone`, `user_id`) or its lower-cased name. -/
structure User where
  ID : Nat := 0
  First_name : Option String := none
  Last_name : Option String := none
  Password : Option String := none
  Email : Option String := none
  Phone : Option String := none
  Token : Option String := none
  Refresh_Token : Option String := none
  Created_at : Nat := 0
  Updated_at : Nat := 0
  User_id : String := ""
  deriving DecidableEq, Repr

/-- Marshalling of `models.Food`. -/
def Food.toBson (o : Food) : Doc :=
  idField o.ID ++
  [("name", optStr o.Name), ("price", optNum o.Price), ("food_image", optStr o.Food_image),
   ("created_at", .time o.Created_at), ("updated_at", .time o.Updated_at),
   ("food_id", .str o.Food_id), ("menu_id", optStr o.Menu_id)]

/-- Marshalling of `models.Invoice` by its `bson` tags. -/
def Invoice.toBson (o : Invoice) : Doc :=
  idField o.ID ++
  [("invoice_id", .str o.Invoice_id), ("order_id", .str o.Order_id),
   ("payment_method", optStr o.Payment_method), ("payment_status", optStr o.Payment_status),
   ("payment_due_date", .time o.Payment_due_date), ("created_at", .time o.Created_at),
   ("updated_at", .time o.Updated_at)]

/-- Marshalling of `models.User` (see `User`). -/
def User.toBson (o : User) : Doc :=
  idField o.ID ++
  [("first_name", optStr o.First_name), ("last_name", optStr o.Last_name),
   ("password", optStr o.Password), ("email", optStr o.Email), ("phone", optStr o.Phone),
   ("token", optStr o.Token), ("refresh_token", optStr o.Refresh_Token),
   ("created_at", .time o.Created_at), ("updated_at", .time o.Updated_at),
   ("user_id", .str o.User_id)]

/-- `Decode` of a document into `models.Food`. -/
def Food.ofBson (d : Doc) : Food :=
  { ID := decodeOid (getField d "_id")
    Name := decodeOptStr (getField d "name")
    Price := decodeOptNum (getField d "price")
    Food_image := decodeOptStr (getField d "food_image")
    Created_at := decodeTime (getField d "created_at")
    Updated_at := decodeTime (getField d "updated_at")
    Food_id := decodeStr (getField d "food_id")
    Menu_id := decodeOptStr (getField d "menu_id") }

/-- `Decode` of a document into `models.Order`. -/
def Order.ofBson (d : Doc) : Order :=
  { ID := decodeOid (getField d "_id")
    Order_Date := decodeTime (getField d "order_date")
    Table_ID := decodeOptStr (getField d "table_id")
    Order_ID := decodeStr (getField d "order_id")
    CreatedAt := decodeTime (getField d "created_at")
    UpdatedAt := decodeTime (getField d "updated_at") }

/-- `Decode` of a document into `models.User` (see `User`). -/
def User.ofBson (d : Doc) : User :=
  { ID := decodeOid (getField d "_id")
    First_name := decodeOptStr (getField d "first_name")
    Last_name := decodeOptStr (getField d "last_name")
    Password := decodeOptStr (getField d "password")
    Email := decodeOptStr (getField d "email")
    Phone := decodeOptStr (getField d "phone")
    Token := decodeOptStr (getField d "token")
    Refresh_Token := decodeOptStr (getField d "refresh_token")
    Created_at := decodeTime (getField d "created_at")
    Updated_at := decodeTime (getField d "updated_at")
    User_id := decodeStr (getField d "user_id") }

/-- `Decode` of a document into `models.Invoice`. -/
def Invoice.ofBson (d : Doc) : Invoice :=
  { ID := decodeOid (getField d "_id")
    Invoice_id := decodeStr (getField d "invoice_id")
    Order_id := decodeStr (getField d "order_id")
    Payment_method := decodeOptStr (getField d "payment_method")
    Payment_status := decodeOptStr (getField d "payment_status")
    Payment_due_date := decodeTime (getField d "payment_due_date")
    Created_at := decodeTime (getField d "created_at")
    Updated_at := decodeTime (getField d "updated_at") }

/-- Go struct `controllers.InvoiceViewFormat`; an `interface{}` field holds the value found
under a key of a report row, nil when the row has no such key. -/
structure InvoiceViewFormat where
  Invoice_id : String := ""
  Order_id : String := ""
  Payment_method : String := ""
  Payment_status : Option String := none
  Payment_due : Option Field := none
  Table_number : Option Field := none
  Payment_due_date : Nat := 0
  Order_details : Option Field := none
  deriving DecidableEq, Repr

/-! ## Validation -/

/-- What a call of `validate.Struct` does: it returns nil, it returns a validation error, or
it panics. The library reads the `validate` tags of the struct type before it looks at any
value, and panics at a tag that names a validation it does not know. -/
inductive Verdict where
  | ok
  | invalid (err : String)
  | panics
  deriving DecidableEq, Repr

/-- The struct validator on `models.OrderItem`, as `CreateOrderItem` calls it: a parameter of
the handler. The validator the program runs is `structValidator`. -/
abbrev Validator := OrderItem → Verdict

/-- Splitting of a text at every occurrence of a separator (`strings.Split`). -/
def splitChars (sep : Char) : List Char → List (List Char)
  | [] => [[]]
  | c :: cs =>
    match splitChars sep cs with
    | [] => [[c]]
    | x :: xs => if c = sep then [] :: x :: xs else (c :: x) :: xs

/-- The validation names of a `validate` tag as the library reads it: the tag is split at
`,`, each part at `|`, and the name is what stands before `=`. Nothing is trimmed, so a
blank after a comma is part of the name that follows. -/
def tagNames (tag : String) : List String :=
  (splitChars ',' tag.toList).flatMap (fun part =>
    (splitChars '|' part).map (fun alt => String.mk ((splitChars '=' alt).headD [])))

/-- The validations of the library that the tags of `models/` use. -/
def knownValidations : List String := ["required", "eq", "min", "max"]

/-- Whether the library can read the tags of a struct type: every name is a validation it
knows. When it cannot, `validate.Struct` panics on every value of the type. -/
def tagsDefined (tags : List (String × String)) : Bool :=
  tags.all (fun t => (tagNames t.2).all (fun n => knownValidations.contains n))

/-- The `validate` tags of `models.OrderItem`, in field order, as written in
`orderItemModel.go`. -/
def OrderItem.validateTags : List (String × String) :=
  [("Quantity", "required, eq=S|eq=M|eq=L"), ("Order_ID", "required"),
   ("Unit_Price", "required"), ("Food_id", "required")]

/-- The rules the tags of `models.OrderItem` state, fields in struct order: `Quantity`
required and one of `S`, `M`, `L`; `Order_ID` required; `Unit_Price` required; `Food_id`
required. The error names the first failing field; `none` when every rule holds. -/
def OrderItem.ruleError (o : OrderItem) : Option String :=
  if o.Quantity = none then some "Quantity: required"
  else if ¬ (o.Quantity = some "S" ∨ o.Quantity = some "M" ∨ o.Quantity = some "L") then
    some "Quantity: eq=S|eq=M|eq=L"
  else if o.Order_ID = "" then some "Order_ID: required"
  else if o.Unit_Price = none then some "Unit_Price: required"
  else if o.Food_id = none then some "Food_id: required"
  else none

/-- The call `validate.Struct(orderItem)` of the program: the library reads the tags of
`models.OrderItem` and panics when one of them names an unknown validation; otherwise it
checks the rules of the tags. -/
def structValidator : Validator := fun o =>
  if tagsDefined OrderItem.validateTags then
    match OrderItem.ruleError o with
    | none => .ok
    | some err => .invalid err
  else .panics

/-! ## Responses -/

/-- The body of a JSON response. -/
inductive Body where
  | error (msg : String)
  | inserted (ids : List Nat)
  | orderItem (o : OrderItem)
  | rows (rs : List M)
  | row (r : M)
  | food (o : Food)
  | order (o : Order)
  | user (o : User)
  | insertedOne (id : Nat)
  | updated (matched modified upserted : Nat)
  | null
  | invoiceView (v : InvoiceViewFormat)
  deriving DecidableEq, Repr

/-- One call of `c.JSON(status, body)`. -/
structure Response where
  status : Nat
  body : Body
  deriving DecidableEq, Repr

/-- How a handler ends: it returns, it panics, or `log.Fatal` ends the process. -/
inductive Exit where
  | returned
  | panicked
  | fatal
  deriving DecidableEq, Repr

/-- The result of running a handler: the world it leaves, the responses it wrote, in order,
and how it ended. -/
structure Outcome where
  world : World
  responses : List Response
  exit : Exit

/-! ## Order creation: `OrderItemOrderCreator` of `orderController.go` -/

/-- Source `OrderItemOrderCreator`: stamps the timestamps, assigns a fresh ObjectID, sets
`Order_ID` to its hex form, calls `orderCollection.InsertOne` (collection `"Order"`) and
discards its result, and returns `Order_ID`. -/
def OrderItemOrderCreator (f : Faults) (w : World) (order : Order) : World × String :=
  let order := { order with CreatedAt := w.now, UpdatedAt := w.now }
  let id := w.nextId + 1
  let order := { order with ID := id, Order_ID := Hex id }
  let store := if f.insertOne then w.store else w.store.insert "Order" [order.toBson]
  ({ w with store := store, nextId := id }, order.Order_ID)

/-! ## Batch creation: `CreateOrderItem` of `orderItemsController.go` -/

/-- How the loop over `orderItemPack.Order_items` ends. -/
inductive LoopResult where
  | done (w : World) (items : List OrderItem)
  | invalid (w : World) (err : String)
  | nilDeref (w : World)
  | validatePanic (w : World)

/-- The world a loop result leaves. -/
def LoopResult.world : LoopResult → World
  | .done w _ => w
  | .invalid w _ => w
  | .nilDeref w => w
  | .validatePanic w => w

/-- The `for _, orderItem := range orderItemPack.Order_items` loop: stamp `Order_ID`,
validate (a panic of `validate.Struct` leaves the handler, an error is answered at once),
assign a fresh ID and the timestamps, round `*orderItem.Unit_Price` with `toFixed(_, 2)` (a
nil pointer panics) and append. -/
def itemLoop (fl : ℚ → ℚ) (validate : Validator) (order_id : String) :
    World → List OrderItem → List OrderItem → LoopResult
  | w, [], acc => .done w acc
  | w, orderItem :: rest, acc =>
    let orderItem := { orderItem with Order_ID := order_id }
    match validate orderItem with
    | .panics => .validatePanic w
    | .invalid err => .invalid w err
    | .ok =>
      let id := w.nextId + 1
      let w1 := { w with nextId := id }
      let orderItem :=
        { orderItem with ID := id, CreatedAt := w.now, UpdatedAt := w.now, Order_Item_Id := Hex id }
      match orderItem.Unit_Price with
      | none => .nilDeref w1
      | some p =>
        itemLoop fl validate order_id w1 rest
          (acc ++ [{ orderItem with Unit_Price := some (toFixed fl p 2) }])

/-- Driver call `InsertMany` on `"orderItem"`: an empty batch is refused by the driver, a
fault writes nothing, otherwise all documents are appended and their ids returned. -/
def InsertMany (f : Faults) (w : World) (items : List OrderItem) : Option (World × List Nat) :=
  if items = [] then none
  else if f.insertMany then none
  else some ({ w with store := w.store.insert "orderItem" (items.map OrderItem.toBson) },
             items.map (·.ID))

/-- The first part of `CreateOrderItem` on a bound request: the Order is created by
`OrderItemOrderCreator`, then the loop walks the line items with its `order_id`. -/
def CreateOrderItem.loop (fl : ℚ → ℚ) (validate : Validator) (f : Faults) (w : World)
    (orderItemPack : OrderItemPack) : LoopResult :=
  let order : Order := { Order_Date := w.now, Table_ID := orderItemPack.Table_id }
  let (w1, order_id) := OrderItemOrderCreator f w order
  itemLoop fl validate order_id w1 orderItemPack.Order_items []

/-- Source `CreateOrderItem`. `body` is the outcome of `c.BindJSON(&orderItemPack)`. -/
def CreateOrderItem (fl : ℚ → ℚ) (validate : Validator) (f : Faults) (w : World)
    (body : Option OrderItemPack) : Outcome :=
  match body with
  | none => { world := w, responses := [⟨400, .error "bind"⟩], exit := .returned }
  | some orderItemPack =>
    match CreateOrderItem.loop fl validate f w orderItemPack with
    | .validatePanic w2 => { world := w2, responses := [], exit := .panicked }
    | .invalid w2 err => { world := w2, responses := [⟨400, .error err⟩], exit := .returned }
    | .nilDeref w2 => { world := w2, responses := [], exit := .panicked }
    | .done w2 orderItemsToBeInserted =>
      match InsertMany f w2 orderItemsToBeInserted with
      | none => { world := w2, responses := [], exit := .fatal }
      | some (w3, insertedOrderItems) =>
        { world := w3, responses := [⟨200, .inserted insertedOrderItems⟩], exit := .returned }

/-! ## Routes and the single-record read: `OrderItemRoutes`, `GetOrderItem` -/

/-- A segment of a route pattern: a literal, or a parameter `:name`. -/
inductive Seg where
  | lit (s : String)
  | param (name : String)
  deriving DecidableEq, Repr

/-- The handlers registered by `OrderItemRoutes`. -/
inductive Handler where
  | GetOrderItems
  | GetOrderItem
  | GetOrderItemsByOrder
  | CreateOrderItem
  | UpdateOrderItem
  deriving DecidableEq, Repr

/-- One registration `incomingRoutes.METHOD(pattern, handler)`. -/
structure Route where
  method : String
  pattern : List Seg
  handler : Handler
  deriving DecidableEq, Repr

/-- Source `OrderItemRoutes`, in source order. -/
def OrderItemRoutes : List Route :=
  [⟨"GET", [.lit "orderItems"], .GetOrderItems⟩,
   ⟨"GET", [.lit "orderItems", .param "orderItem_id"], .GetOrderItem⟩,
   ⟨"GET", [.lit "orderItems-order", .param "order_id"], .GetOrderItemsByOrder⟩,
   ⟨"POST", [.lit "orderItems"], .CreateOrderItem⟩,
   ⟨"PATCH", [.lit "orderItems", .param "orderItem_id"], .UpdateOrderItem⟩]

/-- Matching of a request path against a pattern: the parameters bound, by name. -/
def matchPattern : List Seg → List String → Option (List (String × String))
  | [], [] => some []
  | .lit s :: ps, x :: xs => if s = x then matchPattern ps xs else none
  | .param n :: ps, x :: xs => (matchPattern ps xs).map (fun bs => (n, x) :: bs)
  | _, _ => none

/-- The router: the first registration of the method whose pattern matches the path. -/
def dispatch (routes : List Route) (method : String) (path : List String) :
    Option (Handler × List (String × String)) :=
  routes.findSome? (fun r =>
    if r.method = method then (matchPattern r.pattern path).map (fun bs => (r.handler, bs))
    else none)

/-- Gin `c.Param(key)`: the value bound to `key`, the empty string when there is none. -/
def Param (params : List (String × String)) (key : String) : String :=
  (List.lookup key params).getD ""

/-- Driver call `FindOne` with the filter `bson.M{key: value}` for a string `value`: the
first document whose field `key` is that string. -/
def FindOne (coll : List Doc) (key : String) (value : String) : Option Doc :=
  coll.find? (fun d => decide (getField d key = some (.str value)))

/-- Source `GetOrderItem`: reads the parameter `order_item_id`, looks the item up with the
filter `orderItem_id`, answers 500 on an error and, not having returned, answers 200 with
`orderItem` in every case. -/
def GetOrderItem (w : World) (params : List (String × String)) : Outcome :=
  let orderItemId := Param params "order_item_id"
  match FindOne (w.store "orderItem") "orderItem_id" orderItemId with
  | some d =>
    { world := w, responses := [⟨200, .orderItem (OrderItem.ofBson d)⟩], exit := .returned }
  | none =>
    { world := w
      responses := [⟨500, .error "error occured while fetching the order item"⟩,
                    ⟨200, .orderItem {}⟩]
      exit := .returned }

/-- The request `GET /orderItems/{id}` served through `OrderItemRoutes`. -/
def getOrderItemById (w : World) (id : String) : Option Outcome :=
  match dispatch OrderItemRoutes "GET" ["orderItems", id] with
  | some (.GetOrderItem, params) => some (GetOrderItem w params)
  | _ => none

/-! ## The aggregation pipeline of `ItemsByOrder` -/

/-- A field added by `$lookup`: not set, the array of matches, or (after `$unwind`) one
match. -/
inductive Slot where
  | unset
  | arr (ds : List Doc)
  | one (d : Doc)
  deriving DecidableEq, Repr

/-- A document travelling through the join stages: the order item document and the fields
`food`, `order` and `table` the lookups add. -/
structure Row where
  doc : Doc
  food : Slot := .unset
  order : Slot := .unset
  table : Slot := .unset
  deriving DecidableEq, Repr

/-- The path `$slot.k`: the field `k` of the joined sub-document, missing when nothing is
joined. -/
def Slot.field (s : Slot) (k : String) : Option Scalar :=
  match s with
  | .one d => getField d k
  | _ => none

/-- Equality match of `$lookup`: a missing or null local value matches a foreign field that
is missing or null; any other local value matches an equal foreign value. -/
def lookupMatch (localValue foreignValue : Option Scalar) : Bool :=
  match localValue with
  | none => decide (foreignValue = none ∨ foreignValue = some .null)
  | some .null => decide (foreignValue = none ∨ foreignValue = some .null)
  | some v => decide (foreignValue = some v)

/-- The stage `$unwind` with `preserveNullAndEmptyArrays: true` on one field: one output
per element of the array; an empty array gives one output without the field. -/
def unwindSlot : Slot → List Slot
  | .arr [] => [.unset]
  | .arr ds => ds.map Slot.one
  | s => [s]

/-- Source `matchStage`: `$match` on `order_id` equal to `id`. -/
def matchStage (id : String) (coll : List Doc) : List Row :=
  (coll.filter (fun d => decide (getField d "order_id" = some (.str id)))).map
    (fun d => { doc := d })

/-- The matches of `$lookup`: the documents of the foreign collection whose `foreignField`
matches the local value. -/
def lookupFrom (coll : List Doc) (localValue : Option Scalar) (foreignField : String) :
    List Doc :=
  coll.filter (fun x => lookupMatch localValue (getField x foreignField))

/-- Source `lookupStage`: `$lookup` from `food`, `food_id` to `food_id`, as `food`. -/
def lookupStage (s : Store) (r : Row) : Row :=
  { r with food := .arr (lookupFrom (s "food") (getField r.doc "food_id") "food_id") }

/-- Source `unwindStage`: `$unwind` of `$food`, preserving null and empty arrays. -/
def unwindStage (r : Row) : List Row :=
  (unwindSlot r.food).map (fun x => { r with food := x })

/-- Source `lookupOrderStage`: `$lookup` from `order`, `order_id` to `order_id`, as `order`. -/
def lookupOrderStage (s : Store) (r : Row) : Row :=
  { r with order := .arr (lookupFrom (s "order") (getField r.doc "order_id") "order_id") }

/-- Source `unwindOrderStage`: `$unwind` of `$order`, preserving null and empty arrays. -/
def unwindOrderStage (r : Row) : List Row :=
  (unwindSlot r.order).map (fun x => { r with order := x })

/-- Source `lookupTableStage`: `$lookup` from `table`, `order.table_id` to `table_id`, as
`table`. -/
def lookupTableStage (s : Store) (r : Row) : Row :=
  { r with table := .arr (lookupFrom (s "table") (r.order.field "table_id") "table_id") }

/-- Source `unwindTableStage`: `$unwind` of `$table`, preserving null and empty arrays. -/
def unwindTableStage (r : Row) : List Row :=
  (unwindSlot r.table).map (fun x => { r with table := x })

/-- An output field of `$project`: present when its value is. -/
def keep (k : String) (v : Option Scalar) : Doc :=
  match v with
  | some x => [(k, x)]
  | none => []

/-- Source `projectStage`. `_id` is kept as in every `$project`; `amount` is the top-level
path `$food_price`; `total_count` and `quantity` are inclusions of top-level fields; the
other fields are paths into the joined documents. The entry `id: 0` excludes a field named
`id`, which no output of this stage has: the function is what the other entries compute.
Whether the server accepts the specification is `projectRefused projectStage.spec`. -/
def projectStage (r : Row) : Doc :=
  keep "_id" (getField r.doc "_id") ++
  keep "amount" (getField r.doc "food_price") ++
  keep "total_count" (getField r.doc "total_count") ++
  keep "food_name" (r.food.field "name") ++
  keep "food_image" (r.food.field "food_image") ++
  keep "table_number" (r.table.field "table_number") ++
  keep "table_id" (r.table.field "table_id") ++
  keep "order_id" (r.order.field "order_id") ++
  keep "price" (r.food.field "price") ++
  keep "quantity" (getField r.doc "quantity")

/-- The number `$sum` adds for one input: the value of a numeric field, `0` for a field that
is missing or not a number. -/
def numeric : Option Scalar → ℚ
  | some (.num q) => q
  | _ => 0

/-- The accumulator `$first`: the value of the first document, null when it has none. -/
def firstValue : Option Scalar → Scalar
  | some v => v
  | none => .null

/-- The `_id` of `groupStage`: the document of `$order_id` and `$table_number`, a missing
value giving no field. -/
def groupKey (r : Doc) : Doc :=
  keep "order_id" (getField r "order_id") ++ keep "table_number" (getField r "table_number")

/-- The accumulators of `groupStage` for one group. -/
structure Group where
  _id : Doc
  table_id : Scalar
  order_id : Scalar
  table_number : Scalar
  total_count : ℚ
  order_items : List Doc
  payment : ℚ
  total_amount : ℚ
  deriving DecidableEq, Repr

/-- The group opened by its first document `r`. -/
def Group.init (r : Doc) : Group :=
  { _id := groupKey r
    table_id := firstValue (getField r "table_id")
    order_id := firstValue (getField r "order_id")
    table_number := firstValue (getField r "table_number")
    total_count := numeric (getField r "quantity")
    order_items := [r]
    payment := numeric (getField r "amount")
    total_amount := numeric (getField r "amount") }

/-- The group after one more document `r`: `$first` keeps its value, `$sum` adds, `$push` of
`$$ROOT` appends the document. -/
def Group.add (g : Group) (r : Doc) : Group :=
  { g with
    total_count := g.total_count + numeric (getField r "quantity")
    order_items := g.order_items ++ [r]
    payment := g.payment + numeric (getField r "amount")
    total_amount := g.total_amount + numeric (getField r "amount") }

/-- One document entering `$group`: it joins the group of its key, or opens a new group
after the existing ones. -/
def groupInsert : List Group → Doc → List Group
  | [], r => [Group.init r]
  | g :: gs, r => if g._id = groupKey r then g.add r :: gs else g :: groupInsert gs r

/-- The output document of a group. -/
def Group.toM (g : Group) : M :=
  [("_id", .sub g._id), ("table_id", .val g.table_id), ("order_id", .val g.order_id),
   ("table_number", .val g.table_number), ("total_count", .val (.num g.total_count)),
   ("order_items", .arr g.order_items), ("payment", .val (.num g.payment)),
   ("total_amount", .val (.num g.total_amount))]

/-- The groups of `groupStage`, in order of first appearance. -/
def groups (rows : List Doc) : List Group := rows.foldl groupInsert []

/-- Source `groupStage`. -/
def groupStage (rows : List Doc) : List M := (groups rows).map Group.toM

/-- An output field of the second `$project`: present when its value is. -/
def keepM (k : String) (v : Option Field) : M :=
  match v with
  | some x => [(k, x)]
  | none => []

/-- The path `$_id.table_number` of a group document. -/
def idTableNumber (g : M) : Option Field :=
  match getM g "_id" with
  | some (.sub d) => (getField d "table_number").map Field.val
  | _ => none

/-- Source `projectStage2`: `_id` is kept; `payment_due`, `order_items` and `total_count` are
inclusions; `table_number` is the path `$_id.table_number`. The entry `id: 0` excludes a
field named `id`, which no group has: the function is what the other entries compute.
Whether the server accepts the specification is `projectRefused projectStage2.spec`. -/
def projectStage2 (g : M) : M :=
  keepM "_id" (getM g "_id") ++
  keepM "payment_due" (getM g "payment_due") ++
  keepM "table_number" (idTableNumber g) ++
  keepM "order_items" (getM g "order_items") ++
  keepM "total_count" (getM g "total_count")

/-- An entry of a `$project` specification: the value `0` excludes the field, the value `1`
includes it, a string computes it from a path. -/
inductive ProjectEntry where
  | excluded
  | included
  | computed (path : String)
  deriving DecidableEq, Repr

/-- The specification of source `projectStage`, entry by entry. -/
def projectStage.spec : List (String × ProjectEntry) :=
  [("id", .excluded), ("amount", .computed "$food_price"), ("total_count", .included),
   ("food_name", .computed "$food.name"), ("food_image", .computed "$food.food_image"),
   ("table_number", .computed "$table.table_number"),
   ("table_id", .computed "$table.table_id"), ("order_id", .computed "$order.order_id"),
   ("price", .computed "$food.price"), ("quantity", .included)]

/-- The specification of source `projectStage2`, entry by entry. -/
def projectStage2.spec : List (String × ProjectEntry) :=
  [("id", .excluded), ("payment_due", .included),
   ("table_number", .computed "$_id.table_number"), ("order_items", .included),
   ("total_count", .included)]

/-- The check the server makes on a `$project` specification before it runs the pipeline:
the exclusion of a field other than `_id` cannot stand beside an inclusion or a computed
field. A specification that fails the check is refused and `Aggregate` returns the error. -/
def projectRefused (spec : List (String × ProjectEntry)) : Bool :=
  spec.any (fun e => decide (e.1 ≠ "_id" ∧ e.2 = .excluded)) &&
  spec.any (fun e => decide (e.2 ≠ .excluded))

/-- The rows leaving the join stages: `matchStage`, then each lookup followed by its unwind,
in source order. -/
def joined (s : Store) (id : String) : List Row :=
  let r0 := matchStage id (s "orderItem")
  let r1 := (r0.map (lookupStage s)).flatMap unwindStage
  let r2 := (r1.map (lookupOrderStage s)).flatMap unwindOrderStage
  (r2.map (lookupTableStage s)).flatMap unwindTableStage

/-- The rows entering `groupStage`: the joined rows through `projectStage`. -/
def projected (s : Store) (id : String) : List Doc :=
  (joined s id).map projectStage

/-- The pipeline handed to `orderItemCollection.Aggregate`: `matchStage`, `lookupStage`,
`unwindStage`, `lookupOrderStage`, `unwindOrderStage`, `lookupTableStage`,
`unwindTableStage`, `projectStage`, `groupStage`, `projectStage2`. -/
def pipeline (s : Store) (id : String) : List M :=
  (groupStage (projected s id)).map projectStage2

/-- A Go call that returns a value or panics. -/
inductive Call (α : Type) where
  | ret (a : α)
  | panic

/-- Source `ItemsByOrder`: runs the pipeline; an error of `Aggregate` or of `cursor.All`
is answered with `panic(err)`; otherwise the rows are returned with a nil error. A pipeline
that the server refuses is an error of `Aggregate`: see `Faults.atServer`. -/
def ItemsByOrder (f : Faults) (s : Store) (id : String) : Call (List M) :=
  if f.aggregate then .panic
  else if f.cursorAll then .panic
  else .ret (pipeline s id)

/-- The faults a request meets when the pipeline of `ItemsByOrder` is sent to the server:
besides the failures of `f`, `Aggregate` fails when the server refuses one of the two
`$project` specifications. -/
def Faults.atServer (f : Faults) : Faults :=
  { f with
    aggregate := f.aggregate || projectRefused projectStage.spec ||
      projectRefused projectStage2.spec }

/-- What the groups of `groups rows` are: each group holds, in order, the documents of its
key, its sums are the sums over those documents, every document has a group, and no two
groups share a key. -/
def GroupsOf (gs : List Group) (rows : List Doc) : Prop :=
  (∀ g ∈ gs,
    g.order_items = rows.filter (fun r => decide (groupKey r = g._id)) ∧
    g.total_count = (g.order_items.map (fun r => numeric (getField r "quantity"))).sum ∧
    g.total_amount = (g.order_items.map (fun r => numeric (getField r "amount"))).sum ∧
    g.payment = g.total_amount ∧
    g.order_items ≠ []) ∧
  (∀ r ∈ rows, ∃ g ∈ gs, g._id = groupKey r) ∧
  (gs.map (·._id)).Nodup

/-! ## The report endpoint: `GetOrderItemsByOrder` -/

/-- Source `GetOrderItemsByOrder`: reads the parameter `order_id` and calls `ItemsByOrder`.
A panic of `ItemsByOrder` leaves the handler before any response; when it returns, its
error is nil, so the 500 branch is not taken and the rows are answered with 200. -/
def GetOrderItemsByOrder (f : Faults) (w : World) (params : List (String × String)) :
    Outcome :=
  let orderId := Param params "order_id"
  match ItemsByOrder f w.store orderId with
  | .panic => { world := w, responses := [], exit := .panicked }
  | .ret allOrderItems =>
    { world := w, responses := [⟨200, .rows allOrderItems⟩], exit := .returned }

/-! ## Driver calls shared by the other handlers -/

/-- A struct validator for the model `α`: the text of the validation error, `none` when the
struct is valid. -/
abbrev StructValidator (α : Type) := α → Option String

/-- The `validate` tags of `models.Food`, in field order, as written in `foodModel.go`. -/
def Food.validateTags : List (String × String) :=
  [("Name", "required,min=2,max=100"), ("Price", "required"), ("Food_image", "required"),
   ("Menu_id", "required")]

/-- The call `validate.Struct(food)` of the program, by the tags of `models.Food`: a
`required` pointer must not be nil, and `min=2,max=100` bound the number of characters of
the name. The error names the first failing field. -/
def foodValidator : StructValidator Food := fun o =>
  match o.Name with
  | none => some "Name: required"
  | some n =>
    if n.length < 2 then some "Name: min=2"
    else if 100 < n.length then some "Name: max=100"
    else if o.Price = none then some "Price: required"
    else if o.Food_image = none then some "Food_image: required"
    else if o.Menu_id = none then some "Menu_id: required"
    else none

/-- The `validate` tags of `models.Invoice`, in field order, as written in
`invoiceModel.go`. -/
def Invoice.validateTags : List (String × String) :=
  [("Payment_method", "eq=CARD|eq=CASH|eq="), ("Payment_status", "required,eq=PENDING|eq=PAID"),
   ("Payment_due_date", "required")]

/-- Driver call `FindOne` with the filter `bson.M{key: value}`: the first document whose
field `key` matches `value` (a null value matches a missing or null field). -/
def FindOneBy (coll : List Doc) (key : String) (value : Scalar) : Option Doc :=
  coll.find? (fun d => lookupMatch (some value) (getField d key))

/-- Driver call `CountDocuments` with the filter `bson.M{key: value}`. -/
def CountDocuments (coll : List Doc) (key : String) (value : Scalar) : Nat :=
  (coll.filter (fun d => lookupMatch (some value) (getField d key))).length

/-- Driver call `InsertOne` into the collection `name`: a fault writes nothing. -/
def InsertOne (f : Faults) (w : World) (name : String) (d : Doc) : Option World :=
  if f.insertOne then none else some { w with store := w.store.insert name [d] }

/-- The operator `$set` on one field: the value replaces the stored one, or the field is
added after the others. -/
def setField : Doc → String → Scalar → Doc
  | [], k, v => [(k, v)]
  | (k1, v1) :: rest, k, v => if k1 = k then (k, v) :: rest else (k1, v1) :: setField rest k v

/-- The operator `$set` with the document `set`, field by field. -/
def applySet (d : Doc) (set : Doc) : Doc :=
  set.foldl (fun acc kv => setField acc kv.1 kv.2) d

/-- The first document of a collection whose field `key` is the string `value`, replaced. -/
def updateFirst (key value : String) (set : Doc) : List Doc → Option (List Doc)
  | [] => none
  | d :: rest =>
    if getField d key = some (.str value) then some (applySet d set :: rest)
    else (updateFirst key value set rest).map (fun r => d :: r)

/-- Driver call `UpdateOne` on the collection `name` with the filter `bson.M{key: value}`,
the update `$set: set` and `Upsert: true`. The first matching document is updated; when
there is none, a document made of a fresh `_id`, the filter field and the fields of `set` is
inserted. The result is the world and the matched, modified and upserted counts. -/
def UpdateOne (f : Faults) (w : World) (name key value : String) (set : Doc) :
    Option (World × Nat × Nat × Nat) :=
  if f.updateOne then none
  else
    match FindOne (w.store name) key value, updateFirst key value set (w.store name) with
    | some d, some coll =>
      some ({ w with store := fun c => if c = name then coll else w.store c }, 1,
            if applySet d set = d then 0 else 1, 0)
    | _, _ =>
      let id := w.nextId + 1
      some ({ w with
              store := w.store.insert name
                [applySet [("_id", .oid id), (key, .str value)] set]
              nextId := id }, 0, 0, 1)

/-! ## Updates: `UpdateOrderItem`, `UpdateInvoice` -/

/-- Source `UpdateOrderItem`. The request body is never bound: `orderItem` keeps its zero
value, so none of the three `!= nil` branches is taken and the update sets `updated_at`
only. The parameter read is `order_item_id` and the filter field is `orderItem_id`. -/
def UpdateOrderItem (f : Faults) (w : World) (params : List (String × String))
    (_body : Option OrderItem) : Outcome :=
  let orderItem : OrderItem := {}
  let orderItemId := Param params "order_item_id"
  let updateObj : Doc :=
    (match orderItem.Unit_Price with
      | some p => [("unit_price", Scalar.num p)]
      | none => []) ++
    (match orderItem.Quantity with
      | some q => [("quantity", Scalar.str q)]
      | none => []) ++
    (match orderItem.Food_id with
      | some x => [("food_id", Scalar.str x)]
      | none => []) ++
    [("updated_at", Scalar.time w.now)]
  match UpdateOne f w "orderItem" "orderItem_id" orderItemId updateObj with
  | none =>
    { world := w
      responses := [⟨500, .error "error occured while updating the order item"⟩]
      exit := .returned }
  | some (w1, matched, modified, upserted) =>
    { world := w1, responses := [⟨200, .updated matched modified upserted⟩], exit := .returned }

/-- The request `PATCH /orderItems/{id}` served through `OrderItemRoutes`. -/
def patchOrderItemById (f : Faults) (w : World) (id : String) (body : Option OrderItem) :
    Option Outcome :=
  match dispatch OrderItemRoutes "PATCH" ["orderItems", id] with
  | some (.UpdateOrderItem, params) => some (UpdateOrderItem f w params body)
  | _ => none

/-- Source `UpdateInvoice`: binds the body, sets `payment_method` and `payment_status` when
the body has them and `updated_at` always, and calls `UpdateOne` with upsert. The default
`PENDING` is assigned to `invoice.Payment_status` after `updateObj` is built and is not part
of the update. No validation is called. -/
def UpdateInvoice (f : Faults) (w : World) (params : List (String × String))
    (body : Option Invoice) : Outcome :=
  let invoiceId := Param params "invoice_id"
  match body with
  | none => { world := w, responses := [⟨400, .error "bind"⟩], exit := .returned }
  | some invoice =>
    let updateObj : Doc :=
      (match invoice.Payment_method with
        | some m => [("payment_method", Scalar.str m)]
        | none => []) ++
      (match invoice.Payment_status with
        | some st => [("payment_status", Scalar.str st)]
        | none => []) ++
      [("updated_at", Scalar.time w.now)]
    match UpdateOne f w "invoice" "invoice_id" invoiceId updateObj with
    | none => { world := w, responses := [⟨500, .error "update"⟩], exit := .returned }
    | some (w1, matched, modified, upserted) =>
      { world := w1, responses := [⟨200, .updated matched modified upserted⟩],
        exit := .returned }

/-! ## Creation: `CreateFood`, `CreateOrder`, `CreateInvoice`, `SignUp` -/

/-- Source `CreateFood`. `menuCollection` is declared in a file that is not among the
sources; the name of its collection is a parameter. -/
def CreateFood (fl : ℚ → ℚ) (validate : StructValidator Food) (menuCollection : String)
    (f : Faults) (w : World) (body : Option Food) : Outcome :=
  match body with
  | none => { world := w, responses := [⟨400, .error "bind"⟩], exit := .returned }
  | some food =>
    match validate food with
    | some err => { world := w, responses := [⟨400, .error err⟩], exit := .returned }
    | none =>
      match FindOneBy (w.store menuCollection) "menu_id" (optStr food.Menu_id) with
      | none =>
        { world := w, responses := [⟨500, .error "menu was not found"⟩], exit := .returned }
      | some _ =>
        let id := w.nextId + 1
        let w1 := { w with nextId := id }
        let food := { food with Created_at := w.now, Updated_at := w.now, ID := id,
                                Food_id := Hex id }
        match food.Price with
        | none => { world := w1, responses := [], exit := .panicked }
        | some p =>
          let food := { food with Price := some (toFixed fl p 2) }
          match InsertOne f w1 "food" food.toBson with
          | none =>
            { world := w1, responses := [⟨500, .error "insert"⟩], exit := .returned }
          | some w2 =>
            { world := w2, responses := [⟨200, .insertedOne id⟩], exit := .returned }

/-- Source `CreateOrder`. `tableCollection` and `menuCollection` are declared in files that
are not among the sources; the names of their collections are parameters. The insert goes
to `menuCollection`, as written at line 90. -/
def CreateOrder (validate : StructValidator Order) (tableCollection menuCollection : String)
    (f : Faults) (w : World) (body : Option Order) : Outcome :=
  match body with
  | none => { world := w, responses := [⟨400, .error "bind"⟩], exit := .returned }
  | some order =>
    match validate order with
    | some err => { world := w, responses := [⟨400, .error err⟩], exit := .returned }
    | none =>
      let found : Bool :=
        match order.Table_ID with
        | none => true
        | some t => (FindOneBy (w.store tableCollection) "table_id" (.str t)).isSome
      if found = false then
        { world := w, responses := [⟨500, .error "Table was not found"⟩], exit := .returned }
      else
        let id := w.nextId + 1
        let w1 := { w with nextId := id }
        let order := { order with CreatedAt := w.now, UpdatedAt := w.now, ID := id,
                                  Order_ID := Hex id }
        match InsertOne f w1 menuCollection order.toBson with
        | none =>
          { world := w1, responses := [⟨500, .error "order item was not created"⟩],
            exit := .returned }
        | some w2 =>
          { world := w2, responses := [⟨200, .insertedOne id⟩], exit := .returned }

/-- The instant `time.Now().AddDate(0, 0, 1)`: one calendar day later, a day of 86400
seconds. -/
def addOneDay (t : Nat) : Nat := t + 86400

/-- The invoice `CreateInvoice` validates and inserts: `PENDING` when the body has no payment
method, the three timestamps, a fresh ID and its hex form. -/
def stampInvoice (w : World) (invoice : Invoice) : Invoice :=
  { invoice with
    Payment_status := if invoice.Payment_method = none then some "PENDING"
                      else invoice.Payment_status
    Created_at := w.now
    Updated_at := w.now
    Payment_due_date := addOneDay w.now
    ID := w.nextId + 1
    Invoice_id := Hex (w.nextId + 1) }

/-- Source `CreateInvoice`: bind, look the order up in `orderCollection` (collection
`Order`), stamp, validate, insert. -/
def CreateInvoice (validate : StructValidator Invoice) (f : Faults) (w : World)
    (body : Option Invoice) : Outcome :=
  match body with
  | none => { world := w, responses := [⟨400, .error "bind"⟩], exit := .returned }
  | some invoice =>
    match FindOne (w.store "Order") "order_id" invoice.Order_id with
    | none =>
      { world := w, responses := [⟨500, .error "message: Order was not found"⟩],
        exit := .returned }
    | some _ =>
      let w1 := { w with nextId := w.nextId + 1 }
      let invoice := stampInvoice w invoice
      match validate invoice with
      | some err => { world := w1, responses := [⟨400, .error err⟩], exit := .returned }
      | none =>
        match InsertOne f w1 "invoice" invoice.toBson with
        | none =>
          { world := w1, responses := [⟨500, .error "Invoice item was not created"⟩],
            exit := .returned }
        | some w2 =>
          { world := w2, responses := [⟨200, .insertedOne invoice.ID⟩], exit := .returned }

/-- Source `SignUp`. `HashPassword` wraps bcrypt and `helper.GenerateAllTokens` is declared
in a package that is not among the sources: both are parameters. A failed count goes to
`log.Panic`; the answer to an existing email or phone is written without returning; each
`*user.Field` panics on a nil pointer. -/
def SignUp (validate : StructValidator User) (HashPassword : String → String)
    (GenerateAllTokens : String → String → String → String → String × String)
    (f : Faults) (w : World) (body : Option User) : Outcome :=
  match body with
  | none => { world := w, responses := [⟨400, .error "bind"⟩], exit := .returned }
  | some user =>
    match validate user with
    | some err => { world := w, responses := [⟨400, .error err⟩], exit := .returned }
    | none =>
      if f.countDocuments then { world := w, responses := [], exit := .panicked }
      else
        let countEmail := CountDocuments (w.store "user") "email" (optStr user.Email)
        match user.Password with
        | none => { world := w, responses := [], exit := .panicked }
        | some pw =>
          let user := { user with Password := some (HashPassword pw) }
          let countPhone := CountDocuments (w.store "user") "phone" (optStr user.Phone)
          let exists_ : List Response :=
            if 0 < countEmail ∨ 0 < countPhone then
              [⟨500, .error "this email or phone number already exists"⟩]
            else []
          let id := w.nextId + 1
          let w1 := { w with nextId := id }
          let user := { user with Created_at := w.now, Updated_at := w.now, ID := id,
                                  User_id := Hex id }
          match user.Email, user.First_name, user.Last_name with
          | some email, some first, some last =>
            let tokens := GenerateAllTokens email first last user.User_id
            let user := { user with Token := some tokens.1, Refresh_Token := some tokens.2 }
            match InsertOne f w1 "user" user.toBson with
            | none =>
              { world := w1
                responses := exists_ ++ [⟨500, .error "user was not created"⟩]
                exit := .returned }
            | some w2 =>
              { world := w2, responses := exists_ ++ [⟨200, .insertedOne id⟩],
                exit := .returned }
          | _, _, _ => { world := w1, responses := exists_, exit := .panicked }

/-! ## Single-record reads: `GetFood`, `GetOrder`, `GetUser` -/

/-- Source `GetFood`: answers 500 on an error of the lookup and, not having returned,
answers 200 with `food` in every case. -/
def GetFood (w : World) (params : List (String × String)) : Outcome :=
  let foodId := Param params "food_id"
  match FindOne (w.store "food") "food_id" foodId with
  | some d => { world := w, responses := [⟨200, .food (Food.ofBson d)⟩], exit := .returned }
  | none =>
    { world := w
      responses := [⟨500, .error "error occured while fetching the food item"⟩,
                    ⟨200, .food {}⟩]
      exit := .returned }

/-- Source `GetOrder`: answers 500 on an error of the lookup in `Order` and, not having
returned, answers 200 with `order` in every case. -/
def GetOrder (w : World) (params : List (String × String)) : Outcome :=
  let orderId := Param params "order_id"
  match FindOne (w.store "Order") "order_id" orderId with
  | some d => { world := w, responses := [⟨200, .order (Order.ofBson d)⟩], exit := .returned }
  | none =>
    { world := w
      responses := [⟨500, .error "error occured while fetching the menu"⟩,
                    ⟨200, .order {}⟩]
      exit := .returned }

/-- Source `GetUser`: answers 500 with the text of the error of the lookup and, not having
returned, answers 200 with `user` in every case. -/
def GetUser (w : World) (params : List (String × String)) : Outcome :=
  let userId := Param params "user_id"
  match FindOne (w.store "user") "user_id" userId with
  | some d => { world := w, responses := [⟨200, .user (User.ofBson d)⟩], exit := .returned }
  | none =>
    { world := w
      responses := [⟨500, .error "mongo: no documents in result"⟩, ⟨200, .user {}⟩]
      exit := .returned }

/-! ## Pagination: `GetFoods` of `foodController.go` -/

/-- Gin `c.Query(key)`: the value of the query parameter, the empty string when absent. -/
def Query (query : List (String × String)) (key : String) : String :=
  (List.lookup key query).getD ""

/-- The value of a string of decimal digits, `none` when a character is not a digit or the
string is empty. -/
def parseDigits (cs : List Char) : Option Nat :=
  if cs = [] then none
  else if cs.all Char.isDigit then
    some (cs.foldl (fun acc c => 10 * acc + (c.toNat - '0'.toNat)) 0)
  else none

/-- Go `strconv.Atoi` on a 64-bit platform: an optional sign and decimal digits; `none`
stands for a non-nil error (bad syntax, or a value outside the 64-bit `int`). -/
def Atoi (s : String) : Option Int :=
  let signed : Option Int :=
    match s.data with
    | '-' :: cs => (parseDigits cs).map (fun n => -(n : Int))
    | '+' :: cs => (parseDigits cs).map (fun n => (n : Int))
    | cs => (parseDigits cs).map (fun n => (n : Int))
  match signed with
  | some v => if -(2 : Int) ^ 63 ≤ v ∧ v < (2 : Int) ^ 63 then some v else none
  | none => none

/-- Arithmetic of the 64-bit `int`: the result wraps around modulo `2 ^ 64`. -/
def wrap64 (x : Int) : Int := (x + (2 : Int) ^ 63) % (2 : Int) ^ 64 - (2 : Int) ^ 63

/-- The variable `recordPerPage` of `GetFoods`: the parsed query value, `10` when it does
not parse or is below 1. -/
def recordPerPageOf (query : List (String × String)) : Int :=
  match Atoi (Query query "recordPerPage") with
  | some n => if n < 1 then 10 else n
  | none => 10

/-- The variable `page` of `GetFoods`: the parsed query value, `1` when it does not parse or
is below 1. -/
def pageOf (query : List (String × String)) : Int :=
  match Atoi (Query query "page") with
  | some n => if n < 1 then 1 else n
  | none => 1

/-- The variable `startIndex` of `GetFoods`: `(page - 1) * recordPerPage` in 64-bit `int`
arithmetic. -/
def startIndexOf (query : List (String × String)) : Int :=
  wrap64 (wrap64 (pageOf query - 1) * recordPerPageOf query)

/-- The operator `$slice` with a position and a positive count `n`: `n` elements from
`position`; a negative position counts from the end of the array, not going before its
start. -/
def sliceFrom (data : List Doc) (position n : Int) : List Doc :=
  if 0 ≤ position then (data.drop position.toNat).take n.toNat
  else (data.drop ((data.length : Int) + position).toNat).take n.toNat

/-- Stage `groupStage` of `GetFoods`: `$group` with `_id: nil`, one group holding the count
and all the documents; no group when there is no document. -/
def GetFoods.groupStage (docs : List Doc) : List M :=
  if docs = [] then []
  else [[("_id", .val .null), ("total_count", .val (.num (docs.length : ℚ))),
         ("data", .arr docs)]]

/-- Stage `projectStage` of `GetFoods`: `_id` is left out, `total_count` is kept, and
`food_items` is `$slice` of `$data` from `startIndex`, `recordPerPage` elements. -/
def GetFoods.projectStage (startIndex recordPerPage : Int) (g : M) : M :=
  keepM "total_count" (getM g "total_count") ++
  (match getM g "data" with
    | some (.arr data) => [("food_items", Field.arr (sliceFrom data startIndex recordPerPage))]
    | _ => [])

/-- Source `GetFoods`: the pipeline `matchStage` (every document), `groupStage`,
`projectStage` over `food`; an error of `Aggregate` is answered 500, an error of
`result.All` goes to `log.Fatal`, and `allFoods[0]` is answered with 200, the index
panicking on an empty result. -/
def GetFoods (f : Faults) (w : World) (query : List (String × String)) : Outcome :=
  let recordPerPage := recordPerPageOf query
  let startIndex := startIndexOf query
  if f.aggregate then
    { world := w
      responses := [⟨500, .error "error occurred while fetching the food items"⟩]
      exit := .returned }
  else if f.cursorAll then { world := w, responses := [], exit := .fatal }
  else
    let allFoods :=
      (GetFoods.groupStage (w.store "food")).map (GetFoods.projectStage startIndex recordPerPage)
    match allFoods with
    | [] => { world := w, responses := [], exit := .panicked }
    | first :: _ => { world := w, responses := [⟨200, .row first⟩], exit := .returned }

/-! ## Updates: `UpdateFood`, `UpdateOrder` -/

/-- The document `updateObj` of `UpdateFood`, entry by entry: `name`, `price` and
`food_image` for the fields the body has, the key `menu` for a `Menu_id`, and `updated_at`. -/
def foodUpdateObj (now : Nat) (food : Food) : Doc :=
  (match food.Name with
    | some x => [("name", Scalar.str x)]
    | none => []) ++
  (match food.Price with
    | some p => [("price", Scalar.num p)]
    | none => []) ++
  (match food.Food_image with
    | some x => [("food_image", Scalar.str x)]
    | none => []) ++
  (match food.Menu_id with
    | some m => [("menu", Scalar.str m)]
    | none => []) ++
  [("updated_at", Scalar.time now)]

/-- Source `UpdateFood`: binds the body; a `Menu_id` that matches no document of
`menuCollection` is answered 500 and returned; `UpdateOne` on `food` with the filter
`food_id` and upsert; an error of the update is answered 500 and, the handler not having
returned, 200 with the nil result follows. `menuCollection` is declared in a file that is
not among the sources; the name of its collection is a parameter. -/
def UpdateFood (menuCollection : String) (f : Faults) (w : World)
    (params : List (String × String)) (body : Option Food) : Outcome :=
  let foodId := Param params "food_id"
  match body with
  | none => { world := w, responses := [⟨400, .error "bind"⟩], exit := .returned }
  | some food =>
    let found : Bool :=
      match food.Menu_id with
      | none => true
      | some m => (FindOneBy (w.store menuCollection) "menu_id" (.str m)).isSome
    if found = false then
      { world := w, responses := [⟨500, .error "menu was not found"⟩], exit := .returned }
    else
      match UpdateOne f w "food" "food_id" foodId (foodUpdateObj w.now food) with
      | none =>
        { world := w
          responses := [⟨500, .error "Food item update failed"⟩, ⟨200, .null⟩]
          exit := .returned }
      | some (w1, matched, modified, upserted) =>
        { world := w1, responses := [⟨200, .updated matched modified upserted⟩],
          exit := .returned }

/-- The document `updateObj` of `UpdateOrder`: the key `table` for a `Table_ID`, and
`updated_at`. -/
def orderUpdateObj (now : Nat) (order : Order) : Doc :=
  (match order.Table_ID with
    | some t => [("table", Scalar.str t)]
    | none => []) ++
  [("updated_at", Scalar.time now)]

/-- Source `UpdateOrder`: binds the body; a `Table_ID` is looked up in `orderCollection`
(collection `Order`) with the filter `table_id`, and no match is answered 500 and returned;
`UpdateOne` on `Order` with the filter `order_id` and upsert; an error of the update is
answered 500 and, the handler not having returned, 200 with the nil result follows. -/
def UpdateOrder (f : Faults) (w : World) (params : List (String × String))
    (body : Option Order) : Outcome :=
  let orderId := Param params "order_id"
  match body with
  | none => { world := w, responses := [⟨400, .error "bind"⟩], exit := .returned }
  | some order =>
    let found : Bool :=
      match order.Table_ID with
      | none => true
      | some t => (FindOneBy (w.store "Order") "table_id" (.str t)).isSome
    if found = false then
      { world := w, responses := [⟨500, .error "Table was not found"⟩], exit := .returned }
    else
      match UpdateOne f w "Order" "order_id" orderId (orderUpdateObj w.now order) with
      | none =>
        { world := w
          responses := [⟨500, .error "Order update failed"⟩, ⟨200, .null⟩]
          exit := .returned }
      | some (w1, matched, modified, upserted) =>
        { world := w1, responses := [⟨200, .updated matched modified upserted⟩],
          exit := .returned }

/-! ## Pagination of users: `GetUsers` of `userController.go` -/

/-- The variable `startIndex` of `GetUsers` when the `$project` stage is built:
`(page - 1) * recordPerPage`, replaced by the query value `startIndex` when that is not
empty; `none` when the query value does not parse (answered 400). -/
def userStartIndex (query : List (String × String)) : Option Int :=
  if Query query "startIndex" = "" then some (startIndexOf query)
  else Atoi (Query query "startIndex")

/-- Stage `projectStage` of `GetUsers` on one user document (no `$group` precedes it):
`total_count` is kept when the document has it, and `user_items` is `$slice` of `$data`,
null when the document has no `data`; a `data` that is not an array is an error. -/
def GetUsers.projectStage (d : Doc) : Option M :=
  match getField d "data" with
  | none => some (keepM "total_count" ((getField d "total_count").map Field.val) ++
      [("user_items", Field.val .null)])
  | some .null => some (keepM "total_count" ((getField d "total_count").map Field.val) ++
      [("user_items", Field.val .null)])
  | some _ => none

/-- The pipeline of `GetUsers` over the user documents: `none` when a stage fails. -/
def GetUsers.aggregate : List Doc → Option (List M)
  | [] => some []
  | d :: rest =>
    match GetUsers.projectStage d, GetUsers.aggregate rest with
    | some m, some ms => some (m :: ms)
    | _, _ => none

/-- Source `GetUsers`: an unparsable `startIndex` is answered 400; an error of `Aggregate` or
of `result.All` is answered 500; otherwise 200 with the projected documents. -/
def GetUsers (f : Faults) (w : World) (query : List (String × String)) : Outcome :=
  match userStartIndex query with
  | none => { world := w, responses := [⟨400, .error "invalid startIndex"⟩], exit := .returned }
  | some _ =>
    if f.aggregate then
      { world := w
        responses := [⟨500, .error "error occurred while fetching the users"⟩]
        exit := .returned }
    else
      match GetUsers.aggregate (w.store "user") with
      | none =>
        { world := w
          responses := [⟨500, .error "error occurred while fetching the users"⟩]
          exit := .returned }
      | some allusers =>
        if f.cursorAll then
          { world := w, responses := [⟨500, .error "cursor"⟩], exit := .returned }
        else { world := w, responses := [⟨200, .rows allusers⟩], exit := .returned }

/-! ## The invoice view: `GetInvoice` of `invoiceController.go` -/

/-- Source `GetInvoice`: an error of the lookup is answered 500 and the handler goes on
with the zero-valued invoice; `ItemsByOrder` may panic; `*invoice.Payment_status` panics on
a nil pointer; `allOrderItems[0]` panics on an empty result; otherwise 200 with the view,
whose `Payment_due_date` is never assigned. -/
def GetInvoice (f : Faults) (w : World) (params : List (String × String)) : Outcome :=
  let invoiceId := Param params "invoice_id"
  let found := FindOne (w.store "invoice") "invoice_id" invoiceId
  let early : List Response :=
    match found with
    | some _ => []
    | none => [⟨500, .error "mongo: no documents in result"⟩]
  let invoice : Invoice :=
    match found with
    | some d => Invoice.ofBson d
    | none => {}
  match ItemsByOrder f w.store invoice.Order_id with
  | .panic => { world := w, responses := early, exit := .panicked }
  | .ret allOrderItems =>
    match invoice.Payment_status with
    | none => { world := w, responses := early, exit := .panicked }
    | some status =>
      match allOrderItems with
      | [] => { world := w, responses := early, exit := .panicked }
      | first :: _ =>
        { world := w
          responses := early ++
            [⟨200, .invoiceView
              { Invoice_id := invoice.Invoice_id
                Order_id := invoice.Order_id
                Payment_method := invoice.Payment_method.getD "null"
                Payment_status := some status
                Payment_due := getM first "payment_due"
                Table_number := getM first "table_number"
                Order_details := getM first "order_items" }⟩]
          exit := .returned }

/-! ## Example data -/

/-- An empty store, no ObjectID handed out yet. -/
def world0 : World := { store := fun _ => [], nextId := 0, now := 1700000000 }

/-- A batch of two valid line items. -/
def validPack : OrderItemPack :=
  { Table_id := some "t1"
    Order_items :=
      [{ Quantity := some "M", Unit_Price := some 5, Food_id := some "f1" },
       { Quantity := some "S", Unit_Price := some 3, Food_id := some "f2" }] }

/-- A batch whose second line item has a quantity outside `S`, `M`, `L`. -/
def invalidPack : OrderItemPack :=
  { Table_id := some "t1"
    Order_items :=
      [{ Quantity := some "M", Unit_Price := some 5, Food_id := some "f1" },
       { Quantity := some "XL", Unit_Price := some 3, Food_id := some "f1" }] }

/-- An order item of order `o1`: food `f1`, size `M`. -/
def item1 : Doc :=
  [("_id", .oid 1), ("quantity", .str "M"), ("order_id", .str "o1"),
   ("order_item_id", .str "i1"), ("unit_price", .num 12), ("food_id", .str "f1")]

/-- An order item of order `o1` whose food `f9` is not stored. -/
def item2 : Doc :=
  [("_id", .oid 2), ("quantity", .str "L"), ("order_id", .str "o1"),
   ("order_item_id", .str "i2"), ("unit_price", .num 7), ("food_id", .str "f9")]

/-- A store with one order `o1` at table `t1` (number 5), its two items and one food. -/
def store1 : Store := fun c =>
  if c = "orderItem" then [item1, item2]
  else if c = "food" then
    [[("name", .str "Pizza"), ("price", .num 10), ("food_image", .str "pizza.jpg"),
      ("food_id", .str "f1")]]
  else if c = "order" then [[("order_id", .str "o1"), ("table_id", .str "t1")]]
  else if c = "table" then [[("table_id", .str "t1"), ("table_number", .num 5)]]
  else []

/-- A food whose menu `m9` is not stored. -/
def food1 : Food :=
  { Name := some "Pizza", Price := some 10, Food_image := some "pizza.jpg",
    Menu_id := some "m9" }

/-- An order for table `t1`. -/
def order1 : Order := { Order_Date := 1700000000, Table_ID := some "t1" }

/-- An invoice for order `o1`, no payment method given. -/
def invoice1 : Invoice := { Order_id := "o1" }

/-- A world whose collection `Order` holds the order `o1`. -/
def orderWorld : World :=
  { store := fun c => if c = "Order" then [[("order_id", .str "o1")]] else []
    nextId := 0
    now := 1700000000 }

/-- The call `validate.Struct(invoice)` of the program, by the tags of `models.Invoice`:
the tag of `Payment_method` has no `omitempty`, so a nil pointer fails it, and a value must
be `CARD`, `CASH` or empty; `Payment_status` is required and one of `PENDING`, `PAID`;
`Payment_due_date` is required. The error names the first failing field. -/
def needStatus : StructValidator Invoice := fun o =>
  if ¬ (o.Payment_method = some "CARD" ∨ o.Payment_method = some "CASH" ∨
      o.Payment_method = some "") then
    some "Payment_method: eq=CARD|eq=CASH|eq="
  else if o.Payment_status = none then some "Payment_status: required"
  else if ¬ (o.Payment_status = some "PENDING" ∨ o.Payment_status = some "PAID") then
    some "Payment_status: eq=PENDING|eq=PAID"
  else if o.Payment_due_date = 0 then some "Payment_due_date: required"
  else none

/-- A world whose collection `invoice` holds the invoice `inv1` of order `o1`, pending. -/
def invoiceWorld : World :=
  { store := fun c =>
      if c = "invoice" then
        [Invoice.toBson { ID := 7, Invoice_id := "inv1", Order_id := "o1",
                          Payment_status := some "PENDING", Payment_due_date := 1700086400,
                          Created_at := 1700000000, Updated_at := 1700000000 }]
      else []
    nextId := 7
    now := 1700000500 }

/-- A world with the food `f1` of menu `m1` and the menus `m1` and `m2`. -/
def menuFoodWorld : World :=
  { store := fun c =>
      if c = "food" then
        [Food.toBson { ID := 1, Name := some "Pizza", Price := some 10,
                       Food_image := some "pizza.jpg", Created_at := 1700000000,
                       Updated_at := 1700000000, Food_id := "f1", Menu_id := some "m1" }]
      else if c = "menu" then [[("menu_id", .str "m1")], [("menu_id", .str "m2")]]
      else []
    nextId := 1
    now := 1700000500 }

/-- A world with the orders `o1` at table `t1` and `o2` at table `t2`, and the tables `t1`,
`t2` and `t3`. -/
def ordersWorld : World :=
  { store := fun c =>
      if c = "Order" then
        [Order.toBson { ID := 1, Order_Date := 1700000000, Table_ID := some "t1",
                        Order_ID := "o1", CreatedAt := 1700000000, UpdatedAt := 1700000000 },
         Order.toBson { ID := 2, Order_Date := 1700000000, Table_ID := some "t2",
                        Order_ID := "o2", CreatedAt := 1700000000, UpdatedAt := 1700000000 }]
      else if c = "table" then
        [[("table_id", .str "t1")], [("table_id", .str "t2")], [("table_id", .str "t3")]]
      else []
    nextId := 2
    now := 1700000500 }

/-- A world whose collection `table` holds the table `t1`. -/
def tableWorld : World :=
  { store := fun c => if c = "table" then [[("table_id", .str "t1")]] else []
    nextId := 0
    now := 1700000000 }

/-- A world whose collection `user` holds one user with email `a@b.c` and phone `123`. -/
def userWorld : World :=
  { store := fun c =>
      if c = "user" then
        [User.toBson { ID := 1, First_name := some "Ann", Last_name := some "Bee",
                       Password := some "h", Email := some "a@b.c", Phone := some "123",
                       Created_at := 1700000000, Updated_at := 1700000000, User_id := "u1" }]
      else []
    nextId := 1
    now := 1700000500 }

/-- A sign-up with the email of the stored user and another phone. -/
def user2 : User :=
  { First_name := some "Al", Last_name := some "Cee", Password := some "pw",
    Email := some "a@b.c", Phone := some "999" }

/-- A world whose collection `invoice` holds an invoice `inv3` stored without a status. -/
def noStatusWorld : World :=
  { store := fun c =>
      if c = "invoice" then [[("invoice_id", .str "inv3"), ("order_id", .str "o1")]] else []
    nextId := 0
    now := 1700000000 }

/-- A world whose collection `orderItem` holds two items as `CreateOrderItem` stamps them:
hex identifiers, the `order_id` of their Order, rounded prices. -/
def itemsWorld : World :=
  { store := fun c =>
      if c = "orderItem" then
        [OrderItem.toBson { ID := 2, Quantity := some "M", Order_ID := Hex 1,
                            Order_Item_Id := Hex 2, Unit_Price := some 5, Food_id := some "f1",
                            CreatedAt := 1700000000, UpdatedAt := 1700000000 },
         OrderItem.toBson { ID := 3, Quantity := some "S", Order_ID := Hex 1,
                            Order_Item_Id := Hex 3, Unit_Price := some 3, Food_id := some "f2",
                            CreatedAt := 1700000000, UpdatedAt := 1700000000 }]
      else []
    nextId := 3
    now := 1700000000 }

/-- A store as the handlers write it: the order `o1` at table `t1` is in the collection
`Order`, its two items are in `orderItem`, the food `f1` and the table `t1` (number 5) are
stored, and the collection `order` is empty. -/
def servedStore : Store := fun c =>
  if c = "orderItem" then [item1, item2]
  else if c = "food" then
    [[("name", .str "Pizza"), ("price", .num 10), ("food_image", .str "pizza.jpg"),
      ("food_id", .str "f1")]]
  else if c = "Order" then
    [Order.toBson { ID := 9, Order_Date := 1700000000, Table_ID := some "t1", Order_ID := "o1",
                    CreatedAt := 1700000000, UpdatedAt := 1700000000 }]
  else if c = "table" then [[("table_id", .str "t1"), ("table_number", .num 5)]]
  else []

/-! ## Theorems

### Lemmas on truncation -/

theorem Store.insert_same (s : Store) (name : String) (ds : List Doc) :
    (s.insert name ds) name = s name ++ ds := by
  simp [Store.insert]

theorem itemLoop_cons_panics (fl : ℚ → ℚ) (validate : Validator) (oid : String) (w : World)
    (it : OrderItem) (rest acc : List OrderItem)
    (hv : validate { it with Order_ID := oid } = .panics) :
    itemLoop fl validate oid w (it :: rest) acc = .validatePanic w := by
  simp only [itemLoop, hv]

theorem itemLoop_cons_invalid (fl : ℚ → ℚ) (validate : Validator) (oid : String) (w : World)
    (it : OrderItem) (rest acc : List OrderItem) (err : String)
    (hv : validate { it with Order_ID := oid } = .invalid err) :
    itemLoop fl validate oid w (it :: rest) acc = .invalid w err := by
  simp only [itemLoop, hv]

theorem itemLoop_cons_nilPrice (fl : ℚ → ℚ) (validate : Validator) (oid : String) (w : World)
    (it : OrderItem) (rest acc : List OrderItem)
    (hv : validate { it with Order_ID := oid } = .ok) (hp : it.Unit_Price = none) :
    itemLoop fl validate oid w (it :: rest) acc = .nilDeref { w with nextId := w.nextId + 1 } := by
  simp only [itemLoop, hv]
  simp only [hp]

theorem itemLoop_cons_ok (fl : ℚ → ℚ) (validate : Validator) (oid : String) (w : World)
    (it : OrderItem) (rest acc : List OrderItem) (p : ℚ)
    (hv : validate { it with Order_ID := oid } = .ok) (hp : it.Unit_Price = some p) :
    itemLoop fl validate oid w (it :: rest) acc =
      itemLoop fl validate oid { w with nextId := w.nextId + 1 } rest
        (acc ++ [{ it with Order_ID := oid, ID := w.nextId + 1, CreatedAt := w.now,
                           UpdatedAt := w.now, Order_Item_Id := Hex (w.nextId + 1),
                           Unit_Price := some (toFixed fl p 2) }]) := by
  simp only [itemLoop, hv]
  simp only [hp]

theorem itemLoop_store (fl : ℚ → ℚ) (validate : Validator) (oid : String) :
    ∀ (items : List OrderItem) (w : World) (acc : List OrderItem),
      (itemLoop fl validate oid w items acc).world.store = w.store := by
  intro items
  induction items with
  | nil => intro w acc; rfl
  | cons it rest ih =>
    intro w acc
    cases hv : validate { it with Order_ID := oid } with
    | panics => rw [itemLoop_cons_panics fl validate oid w it rest acc hv]; rfl
    | invalid err => rw [itemLoop_cons_invalid fl validate oid w it rest acc err hv]; rfl
    | ok =>
      cases hp : it.Unit_Price with
      | none => rw [itemLoop_cons_nilPrice fl validate oid w it rest acc hv hp]; rfl
      | some p => rw [itemLoop_cons_ok fl validate oid w it rest acc p hv hp, ih]

theorem itemLoop_nilDeref (fl : ℚ → ℚ) (validate : Validator) (oid : String) :
    ∀ (items : List OrderItem) (w : World) (acc : List OrderItem) (w1 : World),
      itemLoop fl validate oid w items acc = .nilDeref w1 →
      ∃ it ∈ items, validate { it with Order_ID := oid } = .ok ∧ it.Unit_Price = none := by
  intro items
  induction items with
  | nil => intro w acc w1 h; simp [itemLoop] at h
  | cons it rest ih =>
    intro w acc w1 h
    cases hv : validate { it with Order_ID := oid } with
    | panics =>
      rw [itemLoop_cons_panics fl validate oid w it rest acc hv] at h
      cases h
    | invalid err =>
      rw [itemLoop_cons_invalid fl validate oid w it rest acc err hv] at h
      cases h
    | ok =>
      cases hp : it.Unit_Price with
      | none => exact ⟨it, List.mem_cons_self _ _, hv, hp⟩
      | some p =>
        rw [itemLoop_cons_ok fl validate oid w it rest acc p hv hp] at h
        obtain ⟨x, hx, h1, h2⟩ := ih _ _ _ h
        exact ⟨x, List.mem_cons_of_mem _ hx, h1, h2⟩

theorem tagsDefined_orderItem : tagsDefined OrderItem.validateTags = false := by
  decide

theorem structValidator_panics (o : OrderItem) : structValidator o = .panics := by
  simp [structValidator, tagsDefined_orderItem]

theorem ruleError_requiresPrice (o : OrderItem) (h : OrderItem.ruleError o = none) :
    o.Unit_Price ≠ none := by
  unfold OrderItem.ruleError at h
  intro hp
  simp [hp] at h
  split_ifs at h


/-! ### Batch creation -/

theorem CreateOrderItem_loop_eq (fl : ℚ → ℚ) (validate : Validator) (f : Faults) (w : World)
    (pack : OrderItemPack) :
    CreateOrderItem.loop fl validate f w pack =
      itemLoop fl validate (Hex (w.nextId + 1))
        (OrderItemOrderCreator f w { Order_Date := w.now, Table_ID := pack.Table_id }).1
        pack.Order_items [] := by
  rfl

theorem CreateOrderItem_unfold (fl : ℚ → ℚ) (validate : Validator) (f : Faults) (w : World)
    (pack : OrderItemPack) :
    CreateOrderItem fl validate f w (some pack) =
      match CreateOrderItem.loop fl validate f w pack with
      | .validatePanic w2 => { world := w2, responses := [], exit := .panicked }
      | .invalid w2 err => { world := w2, responses := [⟨400, .error err⟩], exit := .returned }
      | .nilDeref w2 => { world := w2, responses := [], exit := .panicked }
      | .done w2 items =>
        match InsertMany f w2 items with
        | none => { world := w2, responses := [], exit := .fatal }
        | some (w3, ids) =>
          { world := w3, responses := [⟨200, .inserted ids⟩], exit := .returned } := by
  rfl

theorem OrderItemOrderCreator_store (f : Faults) (w : World) (order : Order)
    (h : f.insertOne = false) :
    (OrderItemOrderCreator f w order).1.store =
      w.store.insert "Order"
        [({ order with CreatedAt := w.now, UpdatedAt := w.now, ID := w.nextId + 1,
                       Order_ID := Hex (w.nextId + 1) } : Order).toBson] := by
  simp [OrderItemOrderCreator, h]

theorem CreateOrderItem_cons (fl : ℚ → ℚ) (f : Faults) (w : World) (t : Option String)
    (it : OrderItem) (rest : List OrderItem) :
    CreateOrderItem fl structValidator f w (some { Table_id := t, Order_items := it :: rest }) =
      { world := (OrderItemOrderCreator f w { Order_Date := w.now, Table_ID := t }).1
        responses := []
        exit := .panicked } := by
  rw [CreateOrderItem_unfold, CreateOrderItem_loop_eq,
    itemLoop_cons_panics fl structValidator _ _ it rest [] (structValidator_panics _)]

theorem CreateOrderItem_nil (fl : ℚ → ℚ) (validate : Validator) (f : Faults) (w : World)
    (t : Option String) :
    CreateOrderItem fl validate f w (some { Table_id := t, Order_items := [] }) =
      { world := (OrderItemOrderCreator f w { Order_Date := w.now, Table_ID := t }).1
        responses := []
        exit := .fatal } := by
  rfl

theorem CreateOrderItem_store_order (fl : ℚ → ℚ) (validate : Validator) (f : Faults)
    (w : World) (pack : OrderItemPack) :
    (CreateOrderItem fl validate f w (some pack)).world.store "Order" =
      (OrderItemOrderCreator f w { Order_Date := w.now, Table_ID := pack.Table_id }).1.store
        "Order" := by
  have hst := itemLoop_store fl validate (Hex (w.nextId + 1)) pack.Order_items
      (OrderItemOrderCreator f w { Order_Date := w.now, Table_ID := pack.Table_id }).1 []
  rw [CreateOrderItem_unfold, CreateOrderItem_loop_eq]
  cases hl : itemLoop fl validate (Hex (w.nextId + 1))
      (OrderItemOrderCreator f w { Order_Date := w.now, Table_ID := pack.Table_id }).1
      pack.Order_items [] with
  | validatePanic w2 => rw [hl] at hst; simp only [LoopResult.world] at hst; rw [← hst]
  | invalid w2 err => rw [hl] at hst; simp only [LoopResult.world] at hst; rw [← hst]
  | nilDeref w2 => rw [hl] at hst; simp only [LoopResult.world] at hst; rw [← hst]
  | done w2 items =>
    rw [hl] at hst
    simp only [LoopResult.world] at hst
    dsimp only
    unfold InsertMany
    by_cases hnil : items = []
    · simp only [hnil, if_true]
      rw [← hst]
    · by_cases hf : f.insertMany = true
      · simp only [hnil, hf, if_true, if_false]
        rw [← hst]
      · simp only [hnil, hf, if_false]
        rw [← hst]
        simp [Store.insert]

/-- C1, at the failing input: a batch of two line items that meet every rule of the tags of
`models.OrderItem` (quantities `M` and `S`, a price, a food reference). The tag of
`Quantity`, `required, eq=S|eq=M|eq=L`, names the validation ` eq` with a leading blank, so
`validate.Struct` panics on every order item. The Order of the request is stored, no
OrderItem is, and no response is written; the same holds for every non-empty batch, in every
world. -/
theorem C1_valid_batch_stores_no_item (fl : ℚ → ℚ) (f : Faults) (w : World)
    (t : Option String) (it : OrderItem) (rest : List OrderItem) :
    tagNames "required, eq=S|eq=M|eq=L" = ["required", " eq", "eq", "eq"] ∧
    (∀ o : OrderItem, structValidator o = .panics) ∧
    (∀ x ∈ validPack.Order_items, OrderItem.ruleError { x with Order_ID := Hex 1 } = none) ∧
    (CreateOrderItem rnd64 structValidator {} world0 (some validPack)).exit = .panicked ∧
    (CreateOrderItem rnd64 structValidator {} world0 (some validPack)).responses = [] ∧
    (CreateOrderItem rnd64 structValidator {} world0 (some validPack)).world.store "Order" =
      [[("_id", .oid 1), ("order_date", .time 1700000000), ("table_id", .str "t1"),
        ("order_id", .str "000000000000000000000001"), ("created_at", .time 1700000000),
        ("updated_at", .time 1700000000)]] ∧
    (CreateOrderItem rnd64 structValidator {} world0 (some validPack)).world.store "orderItem"
      = [] ∧
    (CreateOrderItem fl structValidator f w
        (some { Table_id := t, Order_items := it :: rest })).exit = .panicked ∧
    (CreateOrderItem fl structValidator f w
        (some { Table_id := t, Order_items := it :: rest })).responses = [] ∧
    (CreateOrderItem fl structValidator f w
        (some { Table_id := t, Order_items := it :: rest })).world.store "orderItem" =
      w.store "orderItem" := by
  refine ⟨by decide, structValidator_panics, by decide, ?_, ?_, ?_, ?_, ?_, ?_, ?_⟩
  · rw [validPack, CreateOrderItem_cons]
  · rw [validPack, CreateOrderItem_cons]
  · rw [validPack, CreateOrderItem_cons]
    decide
  · rw [validPack, CreateOrderItem_cons]
    decide
  · rw [CreateOrderItem_cons]
  · rw [CreateOrderItem_cons]
  · rw [CreateOrderItem_cons]
    unfold OrderItemOrderCreator
    by_cases hf : f.insertOne = true
    · simp [hf]
    · simp [hf, Store.insert]

/-- C2, at the failing input: a batch whose second line item has the quantity `XL`, which the
rules of the tags reject. The collection `Order`, empty before, then holds the Order that
`OrderItemOrderCreator` inserted before the loop; no OrderItem is stored and no response is
written (`validate.Struct` panics on the first item). The insert of the Order precedes every
validation: whatever `validate.Struct` does, and for every batch, the request leaves one new
Order in `Order`. -/
theorem C2_invalid_batch_leaves_order (fl : ℚ → ℚ) (validate : Validator) (w : World)
    (pack : OrderItemPack) :
    invalidPack.Order_items.map (fun x => OrderItem.ruleError { x with Order_ID := Hex 1 }) =
      [none, some "Quantity: eq=S|eq=M|eq=L"] ∧
    world0.store "Order" = [] ∧
    (CreateOrderItem rnd64 structValidator {} world0 (some invalidPack)).world.store "Order" =
      [[("_id", .oid 1), ("order_date", .time 1700000000), ("table_id", .str "t1"),
        ("order_id", .str "000000000000000000000001"), ("created_at", .time 1700000000),
        ("updated_at", .time 1700000000)]] ∧
    (CreateOrderItem rnd64 structValidator {} world0 (some invalidPack)).world.store "orderItem"
      = [] ∧
    (CreateOrderItem rnd64 structValidator {} world0 (some invalidPack)).responses = [] ∧
    (CreateOrderItem rnd64 structValidator {} world0 (some invalidPack)).exit = .panicked ∧
    (CreateOrderItem fl validate {} w (some pack)).world.store "Order" =
      w.store "Order" ++
        [Order.toBson { ID := w.nextId + 1, Order_Date := w.now, Table_ID := pack.Table_id,
                        Order_ID := Hex (w.nextId + 1), CreatedAt := w.now,
                        UpdatedAt := w.now }] := by
  refine ⟨by decide, rfl, ?_, ?_, ?_, ?_, ?_⟩
  · rw [invalidPack, CreateOrderItem_cons]
    decide
  · rw [invalidPack, CreateOrderItem_cons]
    decide
  · rw [invalidPack, CreateOrderItem_cons]
  · rw [invalidPack, CreateOrderItem_cons]
  · rw [CreateOrderItem_store_order, OrderItemOrderCreator_store _ _ _ rfl]
    exact Store.insert_same _ _ _

/-- C3, at the failing input: the batch whose second line item has the quantity `XL`. No
OrderItem is inserted, but the request is not answered 400: `validate.Struct` panics on the
first item, no response is written and the handler ends in the panic. So it is for every
non-empty batch, in every world: no response at all, and every collection other than `Order`
as it was. -/
theorem C3_invalid_item_gets_no_answer (fl : ℚ → ℚ) (f : Faults) (w : World)
    (t : Option String) (it : OrderItem) (rest : List OrderItem) :
    (CreateOrderItem rnd64 structValidator {} world0 (some invalidPack)).responses = [] ∧
    (CreateOrderItem rnd64 structValidator {} world0 (some invalidPack)).exit = .panicked ∧
    (CreateOrderItem rnd64 structValidator {} world0 (some invalidPack)).world.store "orderItem"
      = [] ∧
    (CreateOrderItem fl structValidator f w
        (some { Table_id := t, Order_items := it :: rest })).responses = [] ∧
    (CreateOrderItem fl structValidator f w
        (some { Table_id := t, Order_items := it :: rest })).exit = .panicked ∧
    (∀ c, c ≠ "Order" →
      (CreateOrderItem fl structValidator f w
        (some { Table_id := t, Order_items := it :: rest })).world.store c = w.store c) := by
  refine ⟨?_, ?_, ?_, ?_, ?_, ?_⟩
  · rw [invalidPack, CreateOrderItem_cons]
  · rw [invalidPack, CreateOrderItem_cons]
  · rw [invalidPack, CreateOrderItem_cons]
    decide
  · rw [CreateOrderItem_cons]
  · rw [CreateOrderItem_cons]
  · intro c hc
    rw [CreateOrderItem_cons]
    unfold OrderItemOrderCreator
    by_cases hf : f.insertOne = true
    · simp [hf]
    · simp [hf, Store.insert, hc]


/-! ### Rounding of prices -/

/-- C5, at the failing input: the store holds two order items as `CreateOrderItem` stamps
them; the first has `order_item_id` equal to the hex form of its ID, food reference `f1`,
quantity `M` and price 5. `GET /orderItems/{id}` is routed to `GetOrderItem` with the
parameter bound as `orderItem_id`, for every id; the handler reads `order_item_id`, which is
never bound, filters on the field `orderItem_id`, finds no document and answers 500 and then
200 with the zero-valued record. -/
theorem C5_fetch_by_id_returns_zero_record (id : String) :
    (itemsWorld.store "orderItem").map OrderItem.ofBson =
      [{ ID := 2, Quantity := some "M", Order_ID := Hex 1, Order_Item_Id := Hex 2,
         Unit_Price := some 5, Food_id := some "f1", CreatedAt := 1700000000,
         UpdatedAt := 1700000000 },
       { ID := 3, Quantity := some "S", Order_ID := Hex 1, Order_Item_Id := Hex 3,
         Unit_Price := some 3, Food_id := some "f2", CreatedAt := 1700000000,
         UpdatedAt := 1700000000 }] ∧
    dispatch OrderItemRoutes "GET" ["orderItems", id] =
      some (.GetOrderItem, [("orderItem_id", id)]) ∧
    Param [("orderItem_id", id)] "order_item_id" = "" ∧
    (getOrderItemById itemsWorld (Hex 2)).map (·.responses) =
      some [⟨500, .error "error occured while fetching the order item"⟩,
            ⟨200, .orderItem { ID := 0, Quantity := none, Order_ID := "", Order_Item_Id := "",
                               Unit_Price := none, Food_id := none, CreatedAt := 0,
                               UpdatedAt := 0 }⟩] := by
  refine ⟨by decide!, ?_, ?_, by decide!⟩
  · simp [dispatch, OrderItemRoutes, matchPattern, List.findSome?]
  · simp [Param, List.lookup]


/-! ### Lemmas on documents and on the join stages -/

theorem getField_keep (k k1 : String) (v : Option Scalar) :
    getField (keep k v) k1 = if k1 = k then v else none := by
  cases v with
  | none => simp [keep, getField]
  | some x =>
    by_cases h : k1 = k
    · simp [keep, getField, List.lookup, h]
    · have hb : (k1 == k) = false := by simpa using h
      simp [keep, getField, List.lookup, h, hb]

theorem getField_keep_append (k k1 : String) (v : Option Scalar) (d : Doc) :
    getField (keep k v ++ d) k1 =
      if k1 = k then v.orElse (fun _ => getField d k1) else getField d k1 := by
  cases v with
  | none => simp [keep, getField]
  | some x =>
    by_cases h : k1 = k
    · simp [keep, getField, List.lookup, h]
    · have hb : (k1 == k) = false := by simpa using h
      simp [keep, getField, List.lookup, h, hb]

theorem projectStage_id (r : Row) :
    getField (projectStage r) "_id" = getField r.doc "_id" := by
  simp [projectStage, getField_keep_append, getField_keep]

theorem projectStage_food_name (r : Row) :
    getField (projectStage r) "food_name" = r.food.field "name" := by
  simp [projectStage, getField_keep_append, getField_keep]

theorem projectStage_food_image (r : Row) :
    getField (projectStage r) "food_image" = r.food.field "food_image" := by
  simp [projectStage, getField_keep_append, getField_keep]

theorem projectStage_table_id (r : Row) :
    getField (projectStage r) "table_id" = r.table.field "table_id" := by
  simp [projectStage, getField_keep_append, getField_keep]

theorem projectStage_price (r : Row) :
    getField (projectStage r) "price" = r.food.field "price" := by
  simp [projectStage, getField_keep_append, getField_keep]

theorem projectStage_quantity (r : Row) :
    getField (projectStage r) "quantity" = getField r.doc "quantity" := by
  simp [projectStage, getField_keep_append, getField_keep]

theorem projectStage_amount (r : Row) :
    getField (projectStage r) "amount" = getField r.doc "food_price" := by
  simp [projectStage, getField_keep_append, getField_keep]

theorem unwindSlot_arr_ne_nil (ds : List Doc) : unwindSlot (.arr ds) ≠ [] := by
  cases ds <;> simp [unwindSlot]

theorem mem_unwindSlot_arr (ds : List Doc) (x : Slot) :
    x ∈ unwindSlot (.arr ds) ↔ (ds = [] ∧ x = .unset) ∨ ∃ d ∈ ds, x = .one d := by
  cases ds with
  | nil => simp [unwindSlot]
  | cons d rest =>
    simp only [unwindSlot, List.mem_map]
    constructor
    · rintro ⟨a, ha, rfl⟩
      exact Or.inr ⟨a, ha, rfl⟩
    · rintro (⟨h, _⟩ | ⟨a, ha, rfl⟩)
      · exact absurd h (by simp)
      · exact ⟨a, ha, rfl⟩

theorem mem_matchStage (id : String) (coll : List Doc) (r : Row) :
    r ∈ matchStage id coll ↔
      (r.doc ∈ coll ∧ getField r.doc "order_id" = some (.str id)) ∧
      r.food = .unset ∧ r.order = .unset ∧ r.table = .unset := by
  obtain ⟨d, fo, o, t⟩ := r
  simp only [matchStage, List.mem_map, List.mem_filter, decide_eq_true_eq, Row.mk.injEq]
  constructor
  · rintro ⟨a, ⟨ha, hid⟩, rfl, rfl, rfl, rfl⟩
    exact ⟨⟨ha, hid⟩, rfl, rfl, rfl⟩
  · rintro ⟨⟨ha, hid⟩, rfl, rfl, rfl⟩
    exact ⟨d, ⟨ha, hid⟩, rfl, rfl, rfl, rfl⟩

theorem mem_food_stages (s : Store) (l : List Row) (r : Row) :
    r ∈ (l.map (lookupStage s)).flatMap unwindStage ↔
      ∃ r0 ∈ l, r.doc = r0.doc ∧ r.order = r0.order ∧ r.table = r0.table ∧
        r.food ∈ unwindSlot (.arr (lookupFrom (s "food") (getField r0.doc "food_id") "food_id")) := by
  obtain ⟨d, fo, o, t⟩ := r
  simp only [List.mem_flatMap, List.mem_map, unwindStage, lookupStage, Row.mk.injEq]
  constructor
  · rintro ⟨_, ⟨r0, hr0, rfl⟩, x, hx, rfl, rfl, rfl, rfl⟩
    exact ⟨r0, hr0, rfl, rfl, rfl, hx⟩
  · rintro ⟨r0, hr0, rfl, rfl, rfl, hx⟩
    exact ⟨_, ⟨r0, hr0, rfl⟩, fo, hx, rfl, rfl, rfl, rfl⟩

theorem mem_order_stages (s : Store) (l : List Row) (r : Row) :
    r ∈ (l.map (lookupOrderStage s)).flatMap unwindOrderStage ↔
      ∃ r0 ∈ l, r.doc = r0.doc ∧ r.food = r0.food ∧ r.table = r0.table ∧
        r.order ∈
          unwindSlot (.arr (lookupFrom (s "order") (getField r0.doc "order_id") "order_id")) := by
  obtain ⟨d, fo, o, t⟩ := r
  simp only [List.mem_flatMap, List.mem_map, unwindOrderStage, lookupOrderStage, Row.mk.injEq]
  constructor
  · rintro ⟨_, ⟨r0, hr0, rfl⟩, x, hx, rfl, rfl, rfl, rfl⟩
    exact ⟨r0, hr0, rfl, rfl, rfl, hx⟩
  · rintro ⟨r0, hr0, rfl, rfl, rfl, hx⟩
    exact ⟨_, ⟨r0, hr0, rfl⟩, o, hx, rfl, rfl, rfl, rfl⟩

theorem mem_table_stages (s : Store) (l : List Row) (r : Row) :
    r ∈ (l.map (lookupTableStage s)).flatMap unwindTableStage ↔
      ∃ r0 ∈ l, r.doc = r0.doc ∧ r.food = r0.food ∧ r.order = r0.order ∧
        r.table ∈
          unwindSlot (.arr (lookupFrom (s "table") (r0.order.field "table_id") "table_id")) := by
  obtain ⟨d, fo, o, t⟩ := r
  simp only [List.mem_flatMap, List.mem_map, unwindTableStage, lookupTableStage, Row.mk.injEq]
  constructor
  · rintro ⟨_, ⟨r0, hr0, rfl⟩, x, hx, rfl, rfl, rfl, rfl⟩
    exact ⟨r0, hr0, rfl, rfl, rfl, hx⟩
  · rintro ⟨r0, hr0, rfl, rfl, rfl, hx⟩
    exact ⟨_, ⟨r0, hr0, rfl⟩, t, hx, rfl, rfl, rfl, rfl⟩

theorem mem_joined (s : Store) (id : String) (r : Row) :
    r ∈ joined s id ↔
      (r.doc ∈ s "orderItem" ∧ getField r.doc "order_id" = some (.str id)) ∧
      r.food ∈ unwindSlot (.arr (lookupFrom (s "food") (getField r.doc "food_id") "food_id")) ∧
      r.order ∈
        unwindSlot (.arr (lookupFrom (s "order") (getField r.doc "order_id") "order_id")) ∧
      r.table ∈
        unwindSlot (.arr (lookupFrom (s "table") (r.order.field "table_id") "table_id")) := by
  simp only [joined]
  rw [mem_table_stages]
  constructor
  · rintro ⟨r2, h2, hd2, hf2, ho2, ht⟩
    rw [mem_order_stages] at h2
    obtain ⟨r1, h1, hd1, hf1, _, ho⟩ := h2
    rw [mem_food_stages] at h1
    obtain ⟨r0, h0, hd0, _, _, hf⟩ := h1
    rw [mem_matchStage] at h0
    obtain ⟨hm, _, _, _⟩ := h0
    rw [hd2, hd1, hd0, hf2, hf1, ho2]
    exact ⟨hm, hf, by rw [← hd0]; exact ho, ht⟩
  · rintro ⟨hm, hf, ho, ht⟩
    refine ⟨{ doc := r.doc, food := r.food, order := r.order }, ?_, rfl, rfl, rfl, ht⟩
    rw [mem_order_stages]
    refine ⟨{ doc := r.doc, food := r.food }, ?_, rfl, rfl, rfl, ho⟩
    rw [mem_food_stages]
    refine ⟨{ doc := r.doc }, ?_, rfl, rfl, rfl, hf⟩
    rw [mem_matchStage]
    exact ⟨hm, rfl, rfl, rfl⟩


/-! ### Lemmas on `$group` -/

theorem Group.add_id (g : Group) (r : Doc) : (g.add r)._id = g._id := rfl

theorem map_id_groupInsert (r : Doc) :
    ∀ gs : List Group,
      (groupInsert gs r).map (·._id) =
        if groupKey r ∈ gs.map (·._id) then gs.map (·._id) else gs.map (·._id) ++ [groupKey r] := by
  intro gs
  induction gs with
  | nil => simp [groupInsert, Group.init]
  | cons g gs ih =>
    by_cases h : g._id = groupKey r
    · simp [groupInsert, h, Group.add_id]
    · have h2 : ¬ groupKey r = g._id := fun e => h e.symm
      simp only [groupInsert, h, if_false, List.map_cons, ih, List.mem_cons, h2, false_or]
      split_ifs <;> simp

theorem mem_groupInsert (r : Doc) :
    ∀ gs : List Group, (gs.map (·._id)).Nodup → ∀ g1 ∈ groupInsert gs r,
      (g1 ∈ gs ∧ g1._id ≠ groupKey r) ∨
      (∃ g ∈ gs, g._id = groupKey r ∧ g1 = g.add r) ∨
      ((∀ g ∈ gs, g._id ≠ groupKey r) ∧ g1 = Group.init r) := by
  intro gs
  induction gs with
  | nil =>
    intro _ g1 h1
    simp only [groupInsert, List.mem_singleton] at h1
    exact Or.inr (Or.inr ⟨by simp, h1⟩)
  | cons g gs ih =>
    intro hnd g1 h1
    rw [List.map_cons, List.nodup_cons] at hnd
    by_cases h : g._id = groupKey r
    · simp only [groupInsert, h, if_true, List.mem_cons] at h1
      rcases h1 with h1 | h1
      · exact Or.inr (Or.inl ⟨g, List.mem_cons_self _ _, h, h1⟩)
      · refine Or.inl ⟨List.mem_cons_of_mem _ h1, ?_⟩
        intro e
        exact hnd.1 (List.mem_map.mpr ⟨g1, h1, by rw [e, h]⟩)
    · simp only [groupInsert, h, if_false, List.mem_cons] at h1
      rcases h1 with h1 | h1
      · exact Or.inl ⟨by rw [h1]; exact List.mem_cons_self _ _, by rw [h1]; exact h⟩
      · rcases ih hnd.2 g1 h1 with ⟨a, b⟩ | ⟨g0, a, b, c⟩ | ⟨a, b⟩
        · exact Or.inl ⟨List.mem_cons_of_mem _ a, b⟩
        · exact Or.inr (Or.inl ⟨g0, List.mem_cons_of_mem _ a, b, c⟩)
        · refine Or.inr (Or.inr ⟨?_, b⟩)
          intro x hx
          rcases List.mem_cons.mp hx with e | e
          · rw [e]; exact h
          · exact a x e

theorem GroupsOf.nil : GroupsOf [] [] := by
  refine ⟨?_, ?_, ?_⟩ <;> simp

theorem GroupsOf.step (gs : List Group) (rows : List Doc) (r : Doc) (h : GroupsOf gs rows) :
    GroupsOf (groupInsert gs r) (rows ++ [r]) := by
  obtain ⟨hitems, hcover, hnd⟩ := h
  refine ⟨?_, ?_, ?_⟩
  · intro g1 h1
    rcases mem_groupInsert r gs hnd g1 h1 with ⟨a, b⟩ | ⟨g0, a, b, c⟩ | ⟨a, b⟩
    · obtain ⟨e1, e2, e3, e4, e5⟩ := hitems g1 a
      have hne : ¬ groupKey r = g1._id := fun e => b e.symm
      refine ⟨?_, e2, e3, e4, e5⟩
      rw [List.filter_append, ← e1]
      simp [hne]
    · obtain ⟨e1, e2, e3, e4, e5⟩ := hitems g0 a
      subst c
      refine ⟨?_, ?_, ?_, ?_, ?_⟩
      · rw [List.filter_append, Group.add_id, ← e1]
        simp [Group.add, b]
      · simp [Group.add, e2]
      · simp [Group.add, e3]
      · simp [Group.add, e4]
      · simp [Group.add]
    · subst b
      have hnone : rows.filter (fun x => decide (groupKey x = groupKey r)) = [] := by
        rw [List.filter_eq_nil_iff]
        intro x hx hk
        obtain ⟨g, hg, hgk⟩ := hcover x hx
        exact a g hg (by rw [hgk]; simpa using hk)
      refine ⟨?_, ?_, ?_, ?_, ?_⟩
      · rw [List.filter_append]
        simp [Group.init, hnone]
      · simp [Group.init]
      · simp [Group.init]
      · simp [Group.init]
      · simp [Group.init]
  · intro x hx
    have hmap := map_id_groupInsert r gs
    have hin : ∀ k, k ∈ gs.map (·._id) ∨ k = groupKey r → k ∈ (groupInsert gs r).map (·._id) := by
      intro k hk
      rw [hmap]
      split_ifs with hc
      · rcases hk with hk | hk
        · exact hk
        · rw [hk]; exact hc
      · rcases hk with hk | hk
        · exact List.mem_append_left _ hk
        · rw [hk]; simp
    have hk : groupKey x ∈ (groupInsert gs r).map (·._id) := by
      apply hin
      rcases List.mem_append.mp hx with h1 | h1
      · obtain ⟨g, hg, hgk⟩ := hcover x h1
        exact Or.inl (List.mem_map.mpr ⟨g, hg, hgk⟩)
      · right
        rw [List.mem_singleton.mp h1]
    obtain ⟨g, hg, hgk⟩ := List.mem_map.mp hk
    exact ⟨g, hg, hgk⟩
  · rw [map_id_groupInsert]
    split_ifs with hc
    · exact hnd
    · rw [List.nodup_append]
      refine ⟨hnd, List.nodup_singleton _, ?_⟩
      intro k hk1 hk2
      rw [List.mem_singleton] at hk2
      exact hc (hk2 ▸ hk1)

theorem GroupsOf.foldl :
    ∀ (rows : List Doc) (gs : List Group) (rows0 : List Doc), GroupsOf gs rows0 →
      GroupsOf (rows.foldl groupInsert gs) (rows0 ++ rows) := by
  intro rows
  induction rows with
  | nil => intro gs rows0 h; simpa using h
  | cons r rest ih =>
    intro gs rows0 h
    have := ih (groupInsert gs r) (rows0 ++ [r]) (GroupsOf.step gs rows0 r h)
    simpa using this

theorem projectStage2_toM (g : Group) :
    projectStage2 g.toM =
      [("_id", Field.sub g._id)] ++
      keepM "table_number" ((getField g._id "table_number").map Field.val) ++
      [("order_items", Field.arr g.order_items),
       ("total_count", Field.val (.num g.total_count))] := by
  simp [projectStage2, Group.toM, getM, idTableNumber, List.lookup, keepM]


/-! ### The report of `ItemsByOrder` -/

theorem report_id (g : Group) : getM (projectStage2 g.toM) "_id" = some (.sub g._id) := by
  rw [projectStage2_toM]; simp [getM, List.lookup]

theorem report_order_items (g : Group) :
    getM (projectStage2 g.toM) "order_items" = some (.arr g.order_items) := by
  rw [projectStage2_toM]
  cases getField g._id "table_number" <;> simp [getM, keepM, List.lookup]

theorem report_total_count (g : Group) :
    getM (projectStage2 g.toM) "total_count" = some (.val (.num g.total_count)) := by
  rw [projectStage2_toM]
  cases getField g._id "table_number" <;> simp [getM, keepM, List.lookup]

theorem report_table_number (g : Group) :
    getM (projectStage2 g.toM) "table_number" =
      (getField g._id "table_number").map Field.val := by
  rw [projectStage2_toM]
  cases getField g._id "table_number" <;> simp [getM, keepM, List.lookup]

theorem report_table_id (g : Group) : getM (projectStage2 g.toM) "table_id" = none := by
  rw [projectStage2_toM]
  cases getField g._id "table_number" <;> simp [getM, keepM, List.lookup]

theorem report_order_id (g : Group) : getM (projectStage2 g.toM) "order_id" = none := by
  rw [projectStage2_toM]
  cases getField g._id "table_number" <;> simp [getM, keepM, List.lookup]

theorem projectStage_unit_price (r : Row) :
    getField (projectStage r) "unit_price" = none := by
  simp [projectStage, getField_keep_append, getField_keep]

theorem groupKey_order_id (x : Doc) :
    getField (groupKey x) "order_id" = getField x "order_id" := by
  simp [groupKey, getField_keep_append, getField_keep]

theorem groupKey_table_number (x : Doc) :
    getField (groupKey x) "table_number" = getField x "table_number" := by
  simp [groupKey, getField_keep_append, getField_keep]

theorem unset_of_mem_unwindSlot_nil (x : Slot) (h : x ∈ unwindSlot (.arr [])) : x = .unset := by
  simpa [unwindSlot] using h

theorem projectStage_refused : projectRefused projectStage.spec = true := by
  decide

theorem projectStage2_refused : projectRefused projectStage2.spec = true := by
  decide

theorem atServer_aggregate (f : Faults) : (Faults.atServer f).aggregate = true := by
  simp [Faults.atServer, projectStage_refused]

theorem ItemsByOrder_atServer (f : Faults) (s : Store) (id : String) :
    ItemsByOrder (Faults.atServer f) s id = .panic := by
  simp [ItemsByOrder, atServer_aggregate]

theorem report_total_amount (g : Group) :
    getM (projectStage2 g.toM) "total_amount" = none := by
  rw [projectStage2_toM]
  cases getField g._id "table_number" <;> simp [getM, keepM, List.lookup]

theorem report_payment_due (g : Group) : getM (projectStage2 g.toM) "payment_due" = none := by
  rw [projectStage2_toM]
  cases getField g._id "table_number" <;> simp [getM, keepM, List.lookup]

/-- C6, at the failing input: the store holds the order `o1` and its two items, the second
referencing a food that is not stored. Both `$project` specifications of the pipeline
exclude a field `id` beside inclusions and computed fields, which the server refuses: sent
to the server, `Aggregate` fails and `ItemsByOrder` panics, for every store and order id,
so no row is returned and no stored item appears in any report. The join stages by
themselves keep every item of the order, also one whose food is not found. -/
theorem C6_report_is_refused (f : Faults) (s : Store) (id : String) (d : Doc) :
    projectRefused projectStage.spec = true ∧
    projectRefused projectStage2.spec = true ∧
    (Faults.atServer f).aggregate = true ∧
    ItemsByOrder (Faults.atServer f) s id = .panic ∧
    (item2 ∈ servedStore "orderItem" ∧ getField item2 "order_id" = some (.str "o1")) ∧
    (GetOrderItemsByOrder (Faults.atServer {})
        { store := servedStore, nextId := 9, now := 1700000500 }
        [("order_id", "o1")]).responses = [] ∧
    (GetOrderItemsByOrder (Faults.atServer {})
        { store := servedStore, nextId := 9, now := 1700000500 }
        [("order_id", "o1")]).exit = .panicked ∧
    (d ∈ s "orderItem" → getField d "order_id" = some (.str id) →
      ∃ r ∈ joined s id, r.doc = d) ∧
    (joined servedStore "o1").map
        (fun r => (getField r.doc "order_item_id", r.food.field "name")) =
      [(some (.str "i1"), some (.str "Pizza")), (some (.str "i2"), none)] := by
  refine ⟨projectStage_refused, projectStage2_refused, atServer_aggregate f,
    ItemsByOrder_atServer f s id, by decide!, ?_, ?_, ?_, by decide!⟩
  · simp only [GetOrderItemsByOrder, ItemsByOrder_atServer]
  · simp only [GetOrderItemsByOrder, ItemsByOrder_atServer]
  · intro hd hid
    obtain ⟨x, hx⟩ := List.exists_mem_of_ne_nil _
      (unwindSlot_arr_ne_nil (lookupFrom (s "food") (getField d "food_id") "food_id"))
    obtain ⟨y, hy⟩ := List.exists_mem_of_ne_nil _
      (unwindSlot_arr_ne_nil (lookupFrom (s "order") (getField d "order_id") "order_id"))
    obtain ⟨z, hz⟩ := List.exists_mem_of_ne_nil _
      (unwindSlot_arr_ne_nil (lookupFrom (s "table") (y.field "table_id") "table_id"))
    exact ⟨{ doc := d, food := x, order := y, table := z },
      (mem_joined s id _).mpr ⟨⟨hd, hid⟩, hx, hy, hz⟩, rfl⟩

/-- C8, at the failing input: order `o1` of `store1` has one line item joined to the food
`f1` of price 10 (and one whose food is not stored); `groupStage` sums `$amount`, which
`projectStage` reads from the top-level path `$food_price`, a field no order item has, so
the group has `total_amount` 0 (and `payment` 0), not 10. -/
theorem C8_total_amount_ignores_food_price :
    (joined store1 "o1").map (fun r => r.food.field "price") = [some (.num 10), none] ∧
    (projected store1 "o1").map (fun x => getField x "amount") = [none, none] ∧
    (groupStage (projected store1 "o1")).map (fun g => getM g "total_amount") =
      [some (.val (.num 0))] ∧
    (groupStage (projected store1 "o1")).map (fun g => getM g "payment") =
      [some (.val (.num 0))] := by
  decide!

/-- C9, at the failing input: the report of order `o1` over a store as the handlers write
it. Sent to the server the pipeline is refused and no report row is returned. The final
projection itself keeps `_id`, `order_items` and `total_count`, and `table_number` when the
group key has one: whatever the group, its output has no `table_id`, no `order_id`, no
`total_amount` and no `payment_due` (the group has `payment`), and no line item has a
`unit_price`. Over this store the row of `o1` has the keys `_id`, `order_items` and
`total_count` only. -/
theorem C9_report_rows_lack_fields (f : Faults) (s : Store) (id : String) (g : Group)
    (r : Row) :
    ItemsByOrder (Faults.atServer f) s id = .panic ∧
    getM (projectStage2 g.toM) "table_id" = none ∧
    getM (projectStage2 g.toM) "order_id" = none ∧
    getM (projectStage2 g.toM) "total_amount" = none ∧
    getM (projectStage2 g.toM) "payment_due" = none ∧
    getM (projectStage2 g.toM) "table_number" =
      (getField g._id "table_number").map Field.val ∧
    getField (projectStage r) "unit_price" = none ∧
    (pipeline servedStore "o1").map (fun row => row.map Prod.fst) =
      [["_id", "order_items", "total_count"]] ∧
    (pipeline servedStore "o1").map (fun row => getM row "order_items") =
      [some (.arr
        [[("_id", .oid 1), ("food_name", .str "Pizza"), ("food_image", .str "pizza.jpg"),
          ("price", .num 10), ("quantity", .str "M")],
         [("_id", .oid 2), ("quantity", .str "L")]])] :=
  ⟨ItemsByOrder_atServer f s id, report_table_id g, report_order_id g, report_total_amount g,
    report_payment_due g, report_table_number g, projectStage_unit_price r, by decide!,
    by decide!⟩

/-! ### At most one group -/

/-- C11, at the failing input: with `Aggregate` failing, or with `cursor.All` failing,
`ItemsByOrder` panics and `GetOrderItemsByOrder` ends in that panic with no response
written, for every store and order id: no error object reaches the client. Without a
failure the single response is 200 with the rows. -/
theorem C11_aggregation_failure_panics (w : World) (params : List (String × String)) :
    (GetOrderItemsByOrder { aggregate := true } w params).exit = .panicked ∧
    (GetOrderItemsByOrder { aggregate := true } w params).responses = [] ∧
    (GetOrderItemsByOrder { cursorAll := true } w params).exit = .panicked ∧
    (GetOrderItemsByOrder { cursorAll := true } w params).responses = [] ∧
    (GetOrderItemsByOrder {} w params).exit = .returned ∧
    (GetOrderItemsByOrder {} w params).responses =
      [⟨200, .rows (pipeline w.store (Param params "order_id"))⟩] := by
  refine ⟨rfl, rfl, rfl, rfl, rfl, rfl⟩

/-- C13, at the failing input: with `InsertOne` failing inside `OrderItemOrderCreator`,
nothing is written to `Order`, yet the function returns the same `order_id` as when the
insert succeeds: its only result is that string. `CreateOrderItem` cannot observe the
failure: for every request it writes the same responses and ends the same way as without
the failure, having entered the loop with the `order_id` of an Order that is not stored. -/
theorem C13_order_insert_failure_is_swallowed (fl : ℚ → ℚ) (w : World) (order : Order)
    (pack : OrderItemPack) :
    (OrderItemOrderCreator { insertOne := true } w order).2 =
      (OrderItemOrderCreator {} w order).2 ∧
    (OrderItemOrderCreator { insertOne := true } w order).2 = Hex (w.nextId + 1) ∧
    (OrderItemOrderCreator { insertOne := true } w order).1.store = w.store ∧
    (CreateOrderItem fl structValidator { insertOne := true } w (some pack)).responses =
      (CreateOrderItem fl structValidator {} w (some pack)).responses ∧
    (CreateOrderItem fl structValidator { insertOne := true } w (some pack)).exit =
      (CreateOrderItem fl structValidator {} w (some pack)).exit ∧
    (CreateOrderItem fl structValidator { insertOne := true } w (some pack)).world.store
      "Order" = w.store "Order" ∧
    CreateOrderItem.loop fl structValidator { insertOne := true } w pack =
      itemLoop fl structValidator (Hex (w.nextId + 1))
        { w with nextId := w.nextId + 1 } pack.Order_items [] := by
  refine ⟨rfl, rfl, rfl, ?_, ?_, ?_, rfl⟩
  · obtain ⟨t, items⟩ := pack
    cases items with
    | nil => rfl
    | cons it rest => rw [CreateOrderItem_cons, CreateOrderItem_cons]
  · obtain ⟨t, items⟩ := pack
    cases items with
    | nil => rfl
    | cons it rest => rw [CreateOrderItem_cons, CreateOrderItem_cons]
  · rw [CreateOrderItem_store_order]
    rfl

/-- C14, at the failing input: the store holds two order items, the first with the hex
identifier of its ID, price 5 and quantity `M`. `PATCH /orderItems/{id of the first}` with a
body supplying unit price 9 and quantity `L` is answered 200 with nothing matched and one
document upserted; the stored prices and quantities are as before, and the collection holds
a third document made of `_id`, an empty `orderItem_id` and `updated_at`. -/
theorem C14_patch_does_not_update_item :
    (itemsWorld.store "orderItem").map
        (fun d => (getField d "order_item_id", getField d "unit_price",
          getField d "quantity")) =
      [(some (.str (Hex 2)), some (.num 5), some (.str "M")),
       (some (.str (Hex 3)), some (.num 3), some (.str "S"))] ∧
    dispatch OrderItemRoutes "PATCH" ["orderItems", Hex 2] =
      some (.UpdateOrderItem, [("orderItem_id", Hex 2)]) ∧
    (patchOrderItemById {} itemsWorld (Hex 2)
        (some { Unit_Price := some 9, Quantity := some "L" })).map (·.responses) =
      some [⟨200, .updated 0 0 1⟩] ∧
    (patchOrderItemById {} itemsWorld (Hex 2)
        (some { Unit_Price := some 9, Quantity := some "L" })).map
        (fun o => (o.world.store "orderItem").map
          (fun d => (getField d "order_item_id", getField d "unit_price",
            getField d "quantity"))) =
      some [(some (.str (Hex 2)), some (.num 5), some (.str "M")),
            (some (.str (Hex 3)), some (.num 3), some (.str "S")),
            (none, none, none)] ∧
    (patchOrderItemById {} itemsWorld (Hex 2)
        (some { Unit_Price := some 9, Quantity := some "L" })).map
        (fun o => (o.world.store "orderItem").drop 2) =
      some [[("_id", .oid 4), ("orderItem_id", .str ""), ("updated_at", .time 1700000000)]] := by
  decide!


/-! ### Creation handlers: missing references and malformed input -/

/-- C15. A referenced entity that is not found causes no mutation: `CreateFood` with a
`menu_id` matching no Menu, `CreateInvoice` with an `order_id` matching no Order and
`CreateOrder` with a `table_id` matching no Table each leave the world as it was and write
exactly one response, an error object; it is the 500 of the failed lookup whenever the
handler reaches the lookup (for `CreateInvoice` always, for the other two when validation
passes). -/
theorem C15_reference_not_found_no_mutation (fl : ℚ → ℚ) (vf : StructValidator Food)
    (vo : StructValidator Order) (vi : StructValidator Invoice)
    (menuCollection tableCollection : String) (f : Faults) (w : World)
    (food : Food) (order : Order) (invoice : Invoice) (t : String)
    (hmenu : FindOneBy (w.store menuCollection) "menu_id" (optStr food.Menu_id) = none)
    (ht : order.Table_ID = some t)
    (htable : FindOneBy (w.store tableCollection) "table_id" (.str t) = none)
    (horder : FindOne (w.store "Order") "order_id" invoice.Order_id = none) :
    ((CreateFood fl vf menuCollection f w (some food)).world = w ∧
      (CreateFood fl vf menuCollection f w (some food)).exit = .returned ∧
      (∃ st msg, (CreateFood fl vf menuCollection f w (some food)).responses =
        [⟨st, .error msg⟩]) ∧
      (vf food = none → (CreateFood fl vf menuCollection f w (some food)).responses =
        [⟨500, .error "menu was not found"⟩])) ∧
    ((CreateInvoice vi f w (some invoice)).world = w ∧
      (CreateInvoice vi f w (some invoice)).exit = .returned ∧
      (CreateInvoice vi f w (some invoice)).responses =
        [⟨500, .error "message: Order was not found"⟩]) ∧
    ((CreateOrder vo tableCollection menuCollection f w (some order)).world = w ∧
      (CreateOrder vo tableCollection menuCollection f w (some order)).exit = .returned ∧
      (∃ st msg, (CreateOrder vo tableCollection menuCollection f w (some order)).responses =
        [⟨st, .error msg⟩]) ∧
      (vo order = none →
        (CreateOrder vo tableCollection menuCollection f w (some order)).responses =
          [⟨500, .error "Table was not found"⟩])) := by
  refine ⟨?_, ?_, ?_⟩
  · cases hv : vf food with
    | some err =>
      have hout : CreateFood fl vf menuCollection f w (some food) =
          { world := w, responses := [⟨400, .error err⟩], exit := .returned } := by
        simp only [CreateFood, hv]
      rw [hout]
      exact ⟨rfl, rfl, ⟨400, err, rfl⟩, fun h => by simp at h⟩
    | none =>
      have hout : CreateFood fl vf menuCollection f w (some food) =
          { world := w, responses := [⟨500, .error "menu was not found"⟩],
            exit := .returned } := by
        simp only [CreateFood, hv, hmenu]
      rw [hout]
      exact ⟨rfl, rfl, ⟨500, _, rfl⟩, fun _ => rfl⟩
  · have hout : CreateInvoice vi f w (some invoice) =
        { world := w, responses := [⟨500, .error "message: Order was not found"⟩],
          exit := .returned } := by
      simp only [CreateInvoice, horder]
    rw [hout]
    exact ⟨rfl, rfl, rfl⟩
  · cases hv : vo order with
    | some err =>
      have hout : CreateOrder vo tableCollection menuCollection f w (some order) =
          { world := w, responses := [⟨400, .error err⟩], exit := .returned } := by
        simp only [CreateOrder, hv]
      rw [hout]
      exact ⟨rfl, rfl, ⟨400, err, rfl⟩, fun h => by simp at h⟩
    | none =>
      have hout : CreateOrder vo tableCollection menuCollection f w (some order) =
          { world := w, responses := [⟨500, .error "Table was not found"⟩],
            exit := .returned } := by
        simp [CreateOrder, hv, ht, htable]
      rw [hout]
      exact ⟨rfl, rfl, ⟨500, _, rfl⟩, fun _ => rfl⟩

/-- C15, witness: a food, an order and an invoice whose references are not in the empty
store. -/
theorem C15_reference_not_found_no_mutation_witness :
    (FindOneBy (world0.store "menu") "menu_id" (optStr food1.Menu_id) = none ∧
      order1.Table_ID = some "t1" ∧
      FindOneBy (world0.store "table") "table_id" (.str "t1") = none ∧
      FindOne (world0.store "Order") "order_id" invoice1.Order_id = none) ∧
    ((CreateFood rnd64 (fun _ => none) "menu" {} world0 (some food1)).world = world0 ∧
      (CreateFood rnd64 (fun _ => none) "menu" {} world0 (some food1)).exit = .returned ∧
      (∃ st msg, (CreateFood rnd64 (fun _ => none) "menu" {} world0 (some food1)).responses =
        [⟨st, .error msg⟩]) ∧
      ((fun _ => none : StructValidator Food) food1 = none →
        (CreateFood rnd64 (fun _ => none) "menu" {} world0 (some food1)).responses =
          [⟨500, .error "menu was not found"⟩])) ∧
    ((CreateInvoice (fun _ => none) {} world0 (some invoice1)).world = world0 ∧
      (CreateInvoice (fun _ => none) {} world0 (some invoice1)).exit = .returned ∧
      (CreateInvoice (fun _ => none) {} world0 (some invoice1)).responses =
        [⟨500, .error "message: Order was not found"⟩]) ∧
    ((CreateOrder (fun _ => none) "table" "menu" {} world0 (some order1)).world = world0 ∧
      (CreateOrder (fun _ => none) "table" "menu" {} world0 (some order1)).exit = .returned ∧
      (∃ st msg, (CreateOrder (fun _ => none) "table" "menu" {} world0 (some order1)).responses =
        [⟨st, .error msg⟩]) ∧
      ((fun _ => none : StructValidator Order) order1 = none →
        (CreateOrder (fun _ => none) "table" "menu" {} world0 (some order1)).responses =
          [⟨500, .error "Table was not found"⟩])) :=
  ⟨⟨rfl, rfl, rfl, rfl⟩,
   C15_reference_not_found_no_mutation rnd64 (fun _ => none) (fun _ => none) (fun _ => none)
     "menu" "table" {} world0 food1 order1 invoice1 "t1" rfl rfl rfl rfl⟩

/-- C17, at the failing input: on the empty store every lookup fails, and `GetFood`,
`GetOrder`, `GetOrderItem` and `GetUser` each write two responses, whatever the parameters:
the 500 error object and then, the handler not having returned, 200 with the zero-valued
entity. -/
theorem C17_failed_lookup_writes_two_responses (params : List (String × String)) :
    (GetFood world0 params).responses =
      [⟨500, .error "error occured while fetching the food item"⟩, ⟨200, .food {}⟩] ∧
    (GetOrder world0 params).responses =
      [⟨500, .error "error occured while fetching the menu"⟩, ⟨200, .order {}⟩] ∧
    (GetOrderItem world0 params).responses =
      [⟨500, .error "error occured while fetching the order item"⟩, ⟨200, .orderItem {}⟩] ∧
    (GetUser world0 params).responses =
      [⟨500, .error "mongo: no documents in result"⟩, ⟨200, .user {}⟩] := by
  refine ⟨rfl, rfl, rfl, rfl⟩

/-- C18, at the failing input: a request whose `order_items` list is empty. The loop has
nothing to validate, the driver refuses the empty batch, and `CreateOrderItem` writes no
response and ends in `log.Fatal`, which terminates the process: so it is in every world,
for every table reference and under every fault. -/
theorem C18_insert_many_failure_is_fatal (fl : ℚ → ℚ) (f : Faults) (w : World)
    (t : Option String) :
    InsertMany f w [] = none ∧
    CreateOrderItem.loop fl structValidator f w { Table_id := t, Order_items := [] } =
      .done (OrderItemOrderCreator f w { Order_Date := w.now, Table_ID := t }).1 [] ∧
    (CreateOrderItem fl structValidator f w
        (some { Table_id := t, Order_items := [] })).exit = .fatal ∧
    (CreateOrderItem fl structValidator f w
        (some { Table_id := t, Order_items := [] })).responses = [] :=
  ⟨rfl, rfl, rfl, rfl⟩

/-- C19, at the failing input: the store holds one invoice `inv1` with status `PENDING`.
`UpdateInvoice` on `inv1` with a body giving the status `REFUNDED` is answered 200 and the
stored status becomes `REFUNDED`; `UpdateInvoice` on an id that is not stored, with an empty
body, is answered 200 and upserts an invoice that has no `payment_status` at all. -/
theorem C19_update_invoice_breaks_status :
    (invoiceWorld.store "invoice").map (fun d => getField d "payment_status") =
      [some (.str "PENDING")] ∧
    (UpdateInvoice {} invoiceWorld [("invoice_id", "inv1")]
        (some { Payment_method := some "CARD", Payment_status := some "REFUNDED" })).responses =
      [⟨200, .updated 1 1 0⟩] ∧
    ((UpdateInvoice {} invoiceWorld [("invoice_id", "inv1")]
        (some { Payment_method := some "CARD", Payment_status := some "REFUNDED" })).world.store
        "invoice").map (fun d => (getField d "invoice_id", getField d "payment_status")) =
      [(some (.str "inv1"), some (.str "REFUNDED"))] ∧
    (UpdateInvoice {} invoiceWorld [("invoice_id", "inv2")] (some {})).responses =
      [⟨200, .updated 0 0 1⟩] ∧
    ((UpdateInvoice {} invoiceWorld [("invoice_id", "inv2")] (some {})).world.store
        "invoice").map (fun d => (getField d "invoice_id", getField d "payment_status")) =
      [(some (.str "inv1"), some (.str "PENDING")), (some (.str "inv2"), none)] := by
  decide!


/-! ### Pagination -/

/-- C21, at the failing input: the food `f1` is stored with `menu_id` `m1`, and the menus
`m1` and `m2` exist. `UpdateFood` on `f1` with a body supplying `menu_id` `m2` is answered
200 with one document modified; the stored `menu_id` is still `m1` and the document has a
new field `menu` holding `m2`. For every body, the `$set` document has `name`, `price` and
`food_image` exactly as the body supplies them, always `updated_at`, never a `menu_id`. -/
theorem C21_update_food_writes_menu_key (now : Nat) (food : Food) :
    (UpdateFood "menu" {} menuFoodWorld [("food_id", "f1")]
        (some { Menu_id := some "m2" })).responses = [⟨200, .updated 1 1 0⟩] ∧
    ((UpdateFood "menu" {} menuFoodWorld [("food_id", "f1")]
        (some { Menu_id := some "m2" })).world.store "food").map
        (fun d => (getField d "food_id", getField d "menu_id", getField d "menu")) =
      [(some (.str "f1"), some (.str "m1"), some (.str "m2"))] ∧
    getField (foodUpdateObj now food) "name" = food.Name.map Scalar.str ∧
    getField (foodUpdateObj now food) "price" = food.Price.map Scalar.num ∧
    getField (foodUpdateObj now food) "food_image" = food.Food_image.map Scalar.str ∧
    getField (foodUpdateObj now food) "updated_at" = some (.time now) ∧
    getField (foodUpdateObj now food) "menu" = food.Menu_id.map Scalar.str ∧
    getField (foodUpdateObj now food) "menu_id" = none := by
  refine ⟨by decide!, by decide!, ?_, ?_, ?_, ?_, ?_, ?_⟩ <;>
    · obtain ⟨_, n, p, i, _, _, _, m⟩ := food
      cases n <;> cases p <;> cases i <;> cases m <;>
        simp [foodUpdateObj, getField, List.lookup]

/-- C22, at the failing input: the orders `o1` (table `t1`) and `o2` (table `t2`) and the
tables `t1`, `t2`, `t3` are stored. `UpdateOrder` on `o1` with `table_id` `t3`, an existing
Table that no order references, is rejected with `Table was not found`: the lookup reads
the collection `Order`. With `table_id` `t2` it is answered 200; the stored `table_id` of
`o1` is still `t1` and the document has a new field `table` holding `t2`. -/
theorem C22_update_order_keeps_table_id :
    FindOneBy (ordersWorld.store "table") "table_id" (.str "t3") =
      some [("table_id", .str "t3")] ∧
    (UpdateOrder {} ordersWorld [("order_id", "o1")] (some { Table_ID := some "t3" })).responses
      = [⟨500, .error "Table was not found"⟩] ∧
    (UpdateOrder {} ordersWorld [("order_id", "o1")] (some { Table_ID := some "t2" })).responses
      = [⟨200, .updated 1 1 0⟩] ∧
    ((UpdateOrder {} ordersWorld [("order_id", "o1")]
        (some { Table_ID := some "t2" })).world.store "Order").map
        (fun d => (getField d "order_id", getField d "table_id", getField d "table",
          getField d "updated_at")) =
      [(some (.str "o1"), some (.str "t1"), some (.str "t2"), some (.time 1700000500)),
       (some (.str "o2"), some (.str "t2"), none, some (.time 1700000000))] := by
  decide!

/-- C23, at the failing input: an invoice for the stored order `o1` with no payment method.
`CreateInvoice` sets the status `PENDING`, and `validate.Struct` then rejects the invoice:
the tag of `Payment_method`, `eq=CARD|eq=CASH|eq=`, has no `omitempty` and fails on a nil
pointer. The request is answered 400 and no invoice is stored; so it is for every request
without a payment method: the store is as it was and no response is a 200. -/
theorem C23_invoice_without_method_is_rejected (f : Faults) (w : World) (invoice : Invoice) :
    tagsDefined Invoice.validateTags = true ∧
    (∀ o : Invoice, o.Payment_method = none →
      needStatus o = some "Payment_method: eq=CARD|eq=CASH|eq=") ∧
    FindOne (orderWorld.store "Order") "order_id" invoice1.Order_id =
      some [("order_id", .str "o1")] ∧
    (stampInvoice orderWorld invoice1).Payment_status = some "PENDING" ∧
    (CreateInvoice needStatus {} orderWorld (some invoice1)).responses =
      [⟨400, .error "Payment_method: eq=CARD|eq=CASH|eq="⟩] ∧
    (CreateInvoice needStatus {} orderWorld (some invoice1)).world.store "invoice" = [] ∧
    (CreateInvoice needStatus f w (some { invoice with Payment_method := none })).world.store =
      w.store ∧
    (∀ r ∈ (CreateInvoice needStatus f w
        (some { invoice with Payment_method := none })).responses, r.status ≠ 200) := by
  have hrej : ∀ o : Invoice, o.Payment_method = none →
      needStatus o = some "Payment_method: eq=CARD|eq=CASH|eq=" := by
    intro o h
    simp [needStatus, h]
  have hout : ∀ (f : Faults) (w : World) (inv : Invoice), inv.Payment_method = none →
      (CreateInvoice needStatus f w (some inv) =
          { world := w, responses := [⟨500, .error "message: Order was not found"⟩],
            exit := .returned } ∨
        CreateInvoice needStatus f w (some inv) =
          { world := { w with nextId := w.nextId + 1 },
            responses := [⟨400, .error "Payment_method: eq=CARD|eq=CASH|eq="⟩],
            exit := .returned }) := by
    intro f w inv h
    have hs : needStatus (stampInvoice w inv) = some "Payment_method: eq=CARD|eq=CASH|eq=" :=
      hrej _ (by simp [stampInvoice, h])
    cases hfo : FindOne (w.store "Order") "order_id" inv.Order_id with
    | none => left; simp only [CreateInvoice, hfo]
    | some d => right; simp only [CreateInvoice, hfo, hs]
  refine ⟨by decide, hrej, by decide, by decide, ?_, ?_, ?_, ?_⟩
  · rcases hout {} orderWorld invoice1 rfl with h | h
    · have : (CreateInvoice needStatus {} orderWorld (some invoice1)).responses ≠
          [⟨500, .error "message: Order was not found"⟩] := by decide
      exact absurd (by rw [h]) this
    · rw [h]
  · rcases hout {} orderWorld invoice1 rfl with h | h <;> rw [h] <;> rfl
  · rcases hout f w { invoice with Payment_method := none } rfl with h | h <;> rw [h]
  · intro r hr
    rcases hout f w { invoice with Payment_method := none } rfl with h | h <;>
      · rw [h] at hr
        simp only [List.mem_singleton] at hr
        rw [hr]
        decide


/-! ### Start index, index and pointer safety, sign-up, order insertion -/

/-- C25, at the failing input: over the empty food collection `groupStage` yields no
document, and `GetFoods` panics on `allFoods[0]` with no response written, whatever the
query. -/
theorem C25_empty_collection_panics (query : List (String × String)) :
    world0.store "food" = [] ∧
    GetFoods.groupStage (world0.store "food") = [] ∧
    (GetFoods {} world0 query).exit = .panicked ∧
    (GetFoods {} world0 query).responses = [] := by
  refine ⟨rfl, rfl, rfl, rfl⟩

/-- C26, at the failing input: `GetInvoice` panics on an invoice id that is not stored (the
500 is written, then the nil `Payment_status` of the zero-valued invoice is dereferenced),
on an invoice stored without a status, and on the invoice `inv1`, whose order has no order
items, at `allOrderItems[0]`. -/
theorem C26_get_invoice_panics (params : List (String × String)) :
    ((GetInvoice {} world0 params).exit = .panicked ∧
      (GetInvoice {} world0 params).responses =
        [⟨500, .error "mongo: no documents in result"⟩]) ∧
    ((GetInvoice {} noStatusWorld [("invoice_id", "inv3")]).exit = .panicked ∧
      (GetInvoice {} noStatusWorld [("invoice_id", "inv3")]).responses = []) ∧
    (pipeline invoiceWorld.store "o1" = [] ∧
      (GetInvoice {} invoiceWorld [("invoice_id", "inv1")]).exit = .panicked ∧
      (GetInvoice {} invoiceWorld [("invoice_id", "inv1")]).responses = []) := by
  refine ⟨⟨rfl, rfl⟩, by decide!, by decide!⟩

/-- C27, at the failing input: the store holds a user with the email `a@b.c`. `SignUp` with
that email writes the 500 `already exists` answer and, not having returned, inserts the
user and writes 200: the collection then holds two users with that email. -/
theorem C27_sign_up_inserts_duplicate :
    CountDocuments (userWorld.store "user") "email" (optStr user2.Email) = 1 ∧
    (SignUp (fun _ => none) id (fun _ _ _ _ => ("t", "r")) {} userWorld
        (some user2)).responses =
      [⟨500, .error "this email or phone number already exists"⟩, ⟨200, .insertedOne 2⟩] ∧
    ((SignUp (fun _ => none) id (fun _ _ _ _ => ("t", "r")) {} userWorld
        (some user2)).world.store "user").map (fun d => getField d "email") =
      [some (.str "a@b.c"), some (.str "a@b.c")] := by
  decide!

/-- C29, at the failing input: the table `t1` is stored and an order for it is created.
`CreateOrder` answers 200; the collection `Order`, which `GetOrder` reads, is still empty,
and the new Order, its `order_id` the hex form of its ID, is in the collection of
`menuCollection`; `GetOrder` with that `order_id` finds nothing. -/
theorem C29_create_order_inserts_into_menu :
    (CreateOrder (fun _ => none) "table" "menu" {} tableWorld (some order1)).responses =
      [⟨200, .insertedOne 1⟩] ∧
    (CreateOrder (fun _ => none) "table" "menu" {} tableWorld (some order1)).world.store
      "Order" = [] ∧
    (CreateOrder (fun _ => none) "table" "menu" {} tableWorld (some order1)).world.store
      "menu" =
      [Order.toBson { ID := 1, Order_Date := 1700000000, Table_ID := some "t1",
                      Order_ID := Hex 1, CreatedAt := 1700000000, UpdatedAt := 1700000000 }] ∧
    (GetOrder (CreateOrder (fun _ => none) "table" "menu" {} tableWorld (some order1)).world
        [("order_id", Hex 1)]).responses =
      [⟨500, .error "error occured while fetching the menu"⟩, ⟨200, .order {}⟩] := by
  decide!


/-! ### Price dereferences -/

theorem CreateFood_panicked (fl : ℚ → ℚ) (vf : StructValidator Food) (menuCollection : String)
    (f : Faults) (w : World) (body : Option Food)
    (h : (CreateFood fl vf menuCollection f w body).exit = .panicked) :
    ∃ food, body = some food ∧ vf food = none ∧ food.Price = none := by
  cases body with
  | none => simp [CreateFood] at h
  | some food =>
    cases hv : vf food with
    | some err => simp [CreateFood, hv] at h
    | none =>
      cases hp : food.Price with
      | none => exact ⟨food, rfl, hv, hp⟩
      | some p =>
        exfalso
        cases hm : FindOneBy (w.store menuCollection) "menu_id" (optStr food.Menu_id) with
        | none => simp [CreateFood, hv, hm] at h
        | some d =>
          cases hi : InsertOne f { w with nextId := w.nextId + 1 } "food"
              (Food.toBson { food with Created_at := w.now, Updated_at := w.now,
                                       ID := w.nextId + 1, Food_id := Hex (w.nextId + 1),
                                       Price := some (toFixed fl p 2) }) with
          | none => simp [CreateFood, hv, hm, hp, hi] at h
          | some w2 => simp [CreateFood, hv, hm, hp, hi] at h

theorem foodValidator_requiresPrice (o : Food) (h : foodValidator o = none) :
    o.Price ≠ none := by
  unfold foodValidator at h
  intro hp
  cases hn : o.Name with
  | none => simp [hn] at h
  | some n =>
    simp only [hn, hp] at h
    split_ifs at h

/-- C28. In `CreateOrderItem` and `CreateFood` the dereferences `*orderItem.Unit_Price` and
`*food.Price` are reached only after `validate.Struct` has accepted the struct: whatever the
validator does, the loop of `CreateOrderItem` ends in the nil dereference, and `CreateFood`
panics, only on a struct that passed validation with a nil price. The validation of the
program accepts no struct whose `required` price pointer is nil (for an order item it
accepts none at all, and the rules of its tags demand the price). So the loop of
`CreateOrderItem` never ends in the nil dereference and `CreateFood` never panics, for every
request body, world and fault. -/
theorem C28_price_dereference_safe (fl : ℚ → ℚ) (validate : Validator)
    (vf : StructValidator Food) (menuCollection : String) (f : Faults) (w : World)
    (pack : OrderItemPack) (foodBody : Option Food) :
    (∀ w1, CreateOrderItem.loop fl validate f w pack = .nilDeref w1 →
      ∃ it ∈ pack.Order_items,
        validate { it with Order_ID := Hex (w.nextId + 1) } = .ok ∧ it.Unit_Price = none) ∧
    ((CreateFood fl vf menuCollection f w foodBody).exit = .panicked →
      ∃ food, foodBody = some food ∧ vf food = none ∧ food.Price = none) ∧
    (∀ o : OrderItem, structValidator o = .ok → o.Unit_Price ≠ none) ∧
    (∀ o : OrderItem, OrderItem.ruleError o = none → o.Unit_Price ≠ none) ∧
    (tagsDefined Food.validateTags = true ∧
      ∀ o : Food, foodValidator o = none → o.Price ≠ none) ∧
    (∀ w1, CreateOrderItem.loop fl structValidator f w pack ≠ .nilDeref w1) ∧
    (CreateFood fl foodValidator menuCollection f w foodBody).exit ≠ .panicked := by
  have hloop : ∀ (v : Validator) (w1 : World),
      CreateOrderItem.loop fl v f w pack = .nilDeref w1 →
      ∃ it ∈ pack.Order_items,
        v { it with Order_ID := Hex (w.nextId + 1) } = .ok ∧ it.Unit_Price = none := by
    intro v w1 h
    rw [CreateOrderItem_loop_eq] at h
    exact itemLoop_nilDeref fl v _ _ _ _ _ h
  refine ⟨hloop validate, CreateFood_panicked fl vf menuCollection f w foodBody, ?_,
    ruleError_requiresPrice, ⟨by decide, foodValidator_requiresPrice⟩, ?_, ?_⟩
  · intro o h
    rw [structValidator_panics] at h
    cases h
  · intro w1 h
    obtain ⟨it, _, hv, _⟩ := hloop structValidator w1 h
    rw [structValidator_panics] at hv
    cases hv
  · intro h
    obtain ⟨food, _, h1, h2⟩ := CreateFood_panicked fl foodValidator menuCollection f w foodBody h
    exact foodValidator_requiresPrice food h1 h2


end Restaurant
